import Mathlib

/-!
Shallow embedding of the module runtime core of the repository
(src/packages/jest-runtime/src/index.ts, class Runtime).

The stateful TypeScript class is embedded as explicit state passing over the
structure `RT` below, whose fields mirror the private fields of the class.
External collaborators (the resolver, the transformer, the environment, the
host filesystem and the module mocker) are modelled as the parameter record
`Ext`: each field of `Ext` stands for one collaborator operation that the
core calls but does not implement.  Fallible operations return
`Except (JSError × RT) (α × RT)`: a thrown JavaScript exception carries the
runtime state at the moment of the throw, because the mutations made before
the throw persist on the class instance.

JavaScript values are modelled by `JSValue`: an identity token plus a
truthiness bit.  Object identity (`===`) is equality of tokens; fresh object
allocations draw a fresh token from the `nextToken` counter of the state.
-/

namespace Jest

/-- A JavaScript value: `token` models reference identity (two values are
the same JavaScript value iff their tokens agree) and `truthy` models the
truthiness used by conditions such as `if (registry.get(id))`. -/
structure JSValue where
  token : Nat
  truthy : Bool
deriving DecidableEq

/-- A thrown JavaScript error.  `moduleNotFound` models errors whose `code`
field is MODULE_NOT_FOUND; `userException` models an exception thrown by
evaluated module code inside the executor. -/
inductive JSError where
  | moduleNotFound (message : String)
  | generic (message : String)
  | userException (modulePath : String)
deriving DecidableEq

/-- The module record of the source (type `InitialModule`): id, filename,
exports and the loaded flag.  The `children`, `parent`, `paths` and
`require` fields of the source record are wiring that no claim observes
(`parent` is a lazy getter, `require` a bound closure), so they are not part
of the stored data here. -/
structure ModuleRecord where
  id : String
  filename : String
  exports : JSValue
  loaded : Bool
deriving DecidableEq

/-- Association-list lookup keyed by strings; models both `Map.get` and
plain-object indexing of the source. -/
def lookupStr (k : String) : List (String × α) → Option α
  | [] => none
  | (k₁, v) :: t => if k₁ = k then some v else lookupStr k t

/-- Association-list update; models both `Map.set` and plain-object
assignment of the source. -/
def setKey (k : String) (v : α) : List (String × α) → List (String × α)
  | [] => [(k, v)]
  | (k₁, v₁) :: t => if k₁ = k then (k, v) :: t else (k₁, v₁) :: setKey k v t

/-- Key membership, the model of `id in obj` / `map.has`. -/
def containsKey (k : String) (l : List (String × α)) : Bool :=
  (lookupStr k l).isSome

/-- Truthiness of a `Map.get` result: `undefined` is falsy, a present value
contributes its own truthiness. -/
def truthyOpt : Option JSValue → Bool
  | some v => v.truthy
  | none => false

/-- External collaborators of the runtime: the resolver, the environment,
the transformer and the host.  Each field models one operation the core
consumes (section 6 of the specification).  `evalModule` is the behaviour of
evaluated user code for a given filename: `none` means the evaluated code
throws, `some none` means it completes keeping the pre-registered exports
object, `some (some v)` means it completes after reassigning
`module.exports` to `v`.  `mocksAdjacent p` models the probe
`fs.existsSync(path.join(dirname(p), "__mocks__", basename(p)))`, returning
the adjacent manual-mock path when it exists on disk. -/
structure Ext where
  getModuleID : List (String × Bool) → String → Option String → String
  resolveModule : String → String → Option String
  isCoreModule : String → Bool
  getModule : String → Option String
  getMockModule : String → String → Option String
  resolveStubModuleName : String → String → Option String
  getModulePath : String → String → String
  extname : String → String
  mocksAdjacent : String → Option String
  jsonExports : String → JSValue
  nodeExports : String → JSValue
  evalModule : String → Option (Option JSValue)
  getMetadata : JSValue → Option Nat
  emptyMetadata : Nat
  hostRequire : String → JSValue
  processValue : JSValue
  globalObj : Option (List (String × JSValue))
  runScriptOk : Bool
  extraGlobals : List String
  siblingHint : String → String → Option String
  hasUnmockList : Bool
  unmockTest : String → Bool
  inNodeModules : String → Bool

/-- The mutable state of one `Runtime` instance: one field per private field
of the source class that the claims observe.  `mockFactoryCalls` counts the
invocations of each registered mock factory (the factory closures of the
source are modelled as functions of their invocation index).  `loggedErrors`
models the console.error log and `exitCode` models `process.exitCode`. -/
structure RT where
  currentlyExecutingModulePath : String
  isCurrentlyExecutingManualMock : Option String
  explicitShouldMock : List (String × Bool)
  mockFactories : List (String × (Nat → JSValue))
  mockFactoryCalls : List (String × Nat)
  mockMetaDataCache : List (String × Nat)
  mockRegistry : List (String × JSValue)
  isolatedMockRegistry : Option (List (String × JSValue))
  moduleRegistry : List (String × ModuleRecord)
  isolatedModuleRegistry : Option (List (String × ModuleRecord))
  internalModuleRegistry : List (String × ModuleRecord)
  shouldAutoMock : Bool
  shouldMockModuleCache : List (String × Bool)
  shouldUnmockTransitiveDependenciesCache : List (String × Bool)
  transitiveShouldMock : List (String × Bool)
  virtualMocks : List (String × Bool)
  nextToken : Nat
  exitCode : Option Nat
  loggedErrors : List String

/-- Allocate a fresh (truthy) object, modelling `{}` or a freshly created
mock object. -/
def alloc (st : RT) : JSValue × RT :=
  (⟨st.nextToken, true⟩, { st with nextToken := st.nextToken + 1 })

/-- Message logged when the script runner returns null (source line 741). -/
def tornDownMessage : String :=
  "You are trying to import a file after the Jest environment has been torn down."

/-- Message of the missing-extra-global error (source lines 765-767). -/
def missingGlobalMessage (g : String) : String :=
  "You have requested " ++ g ++
    " as a global variable, but it was not present. Please check your config or your global environment."

/-- Message of a resolution failure thrown by the resolver. -/
def moduleNotFoundMessage (f n : String) : String :=
  "Cannot find module " ++ n ++ " from " ++ f

/-- Message of the automock metadata failure (source lines 811-814). -/
def failMetadataMessage (p : String) : String :=
  "Failed to get mock metadata: " ++ p

/-- Truthiness of an extra-global lookup on the environment global, the
model of `this._environment.global[globalVariable]` as a condition. -/
def truthyLookup (k : String) (g : List (String × JSValue)) : Bool :=
  truthyOpt (lookupStr k g)

/-- The extra-globals argument evaluation of `_execModule` (source lines
760-768): the map over `extraGlobals` evaluates left to right and throws at
the first name whose value on the environment global is falsy or absent.
Returns the name the error reports, or `none` when every lookup passes. -/
def checkExtraGlobals (gs : List String) (g : List (String × JSValue)) : Option String :=
  match gs with
  | [] => none
  | x :: rest => if truthyLookup x g then checkExtraGlobals rest g else some x

/-- The executor `_execModule` (source lines 691-773).  Mirrors the source
exit paths: the silent early return when the environment global is null; the
logged abort with exit code 1 when `runScript` returns null; the throw from
the extra-globals argument evaluation; the throw from evaluated code; and
the normal completion, which alone restores the reentrancy pair from the
saved locals.  Source-map registration and the record wiring (children,
parent accessor, paths, bound require) have no observable effect on any
claim and are omitted.  The transformer call is modelled as total. -/
def execModule (ext : Ext) (localModule : ModuleRecord) (st : RT) :
    Except (JSError × RT) (ModuleRecord × RT) :=
  match ext.globalObj with
  | none => .ok (localModule, st)
  | some gl =>
    let filename := localModule.filename
    let lastExecutingModulePath := st.currentlyExecutingModulePath
    let origCurrExecutingManualMock := st.isCurrentlyExecutingManualMock
    let st₁ : RT := { st with currentlyExecutingModulePath := filename,
                              isCurrentlyExecutingManualMock := some filename }
    if ext.runScriptOk = false then
      .ok (localModule, { st₁ with loggedErrors := tornDownMessage :: st₁.loggedErrors,
                                   exitCode := some 1 })
    else
      match checkExtraGlobals ext.extraGlobals gl with
      | some g => .error (.generic (missingGlobalMessage g), st₁)
      | none =>
        match ext.evalModule filename with
        | none => .error (.userException filename, st₁)
        | some reassigned =>
          let lm₁ := match reassigned with
            | some v => { localModule with exports := v }
            | none => localModule
          .ok (lm₁, { st₁ with
                        isCurrentlyExecutingManualMock := origCurrExecutingManualMock,
                        currentlyExecutingModulePath := lastExecutingModulePath })

/-- The loader `_loadModule` (source lines 461-489): dispatch on the file
extension (data format, native addon, transformable source) and flip
`loaded` to true after the dispatch returns.  The JSON branch folds the read,
BOM strip, `transformJson` and sandbox parse into the collaborator field
`jsonExports`; the native branch likewise. -/
def loadModule (ext : Ext) (localModule : ModuleRecord) (st : RT) :
    Except (JSError × RT) (ModuleRecord × RT) :=
  if ext.extname localModule.filename = ".json" then
    .ok ({ localModule with exports := ext.jsonExports localModule.filename, loaded := true }, st)
  else if ext.extname localModule.filename = ".node" then
    .ok ({ localModule with exports := ext.nodeExports localModule.filename, loaded := true }, st)
  else
    match execModule ext localModule st with
    | .error e => .error e
    | .ok (lm₁, st₁) => .ok ({ lm₁ with loaded := true }, st₁)

/-- Which module registry a load goes through (section 4.2 `select`). -/
inductive RegistrySel where
  | internal
  | main
  | isolated
deriving DecidableEq

/-- Read the selected module registry. -/
def getModuleRegistry (sel : RegistrySel) (st : RT) : List (String × ModuleRecord) :=
  match sel with
  | .internal => st.internalModuleRegistry
  | .main => st.moduleRegistry
  | .isolated => st.isolatedModuleRegistry.getD []

/-- Write back the selected module registry. -/
def setModuleRegistry (sel : RegistrySel) (reg : List (String × ModuleRecord)) (st : RT) : RT :=
  match sel with
  | .internal => { st with internalModuleRegistry := reg }
  | .main => { st with moduleRegistry := reg }
  | .isolated => { st with isolatedModuleRegistry := some reg }

/-- `_requireCoreModule` (source lines 775-781). -/
def requireCoreModule (ext : Ext) (n : String) : JSValue :=
  if n = "process" then ext.processValue else ext.hostRequire n

/-- The registry-miss path of `requireModule` (source lines 343-363):
pre-register a fresh record in the selected registry so that circular
requires resolve to the partial record, dispatch to the loader, and return
the exports of the loaded record, which sits in the selected registry
because the source mutates the registered record in place. -/
def loadAndRegister (ext : Ext) (sel : RegistrySel) (modulePath : String) (st : RT) :
    Except (JSError × RT) (JSValue × RT) :=
  let freshExports := (alloc st).1
  let st₁ := (alloc st).2
  let localModule : ModuleRecord :=
    { id := modulePath, filename := modulePath, exports := freshExports, loaded := false }
  let st₂ := setModuleRegistry sel (setKey modulePath localModule (getModuleRegistry sel st₁)) st₁
  match loadModule ext localModule st₂ with
  | .error e => .error e
  | .ok (lm₁, st₃) =>
    .ok (lm₁.exports, setModuleRegistry sel (setKey modulePath lm₁ (getModuleRegistry sel st₃)) st₃)

/-- Whether the requested name is a core module (`moduleName &&
this._resolver.isCoreModule(moduleName)`, source line 314). -/
def isCoreName (ext : Ext) : Option String → Bool
  | some n => ext.isCoreModule n
  | none => false

/-- The manual-mock redirect of `requireModule` (source lines 298-312):
the resulting override path, or `none` when the redirect does not fire. -/
def manualRedirect (ext : Ext) (f : String) (moduleName : Option String)
    (isInternal : Bool) (isRequireActual : Bool) (st : RT) : Option String :=
  let moduleID := ext.getModuleID st.virtualMocks f moduleName
  let moduleResource := moduleName.bind ext.getModule
  match moduleName.bind (fun n => ext.getMockModule f n) with
  | some m =>
    if !isInternal && !isRequireActual && moduleResource.isNone
        && decide (st.isCurrentlyExecutingManualMock ≠ some m)
        && decide (lookupStr moduleID st.explicitShouldMock ≠ some false) then
      some m
    else none
  | none => none

/-- The module path a `requireModule` call operates on: the redirect path
when the redirect fired, otherwise `_resolveModule` (source lines 318-320
and 621-623); `none` models the MODULE_NOT_FOUND throw of the resolver. -/
def resolvePath (ext : Ext) (f : String) (moduleName : Option String)
    (redirect : Option String) : Option String :=
  match redirect with
  | some m => some m
  | none =>
    match moduleName with
    | some n => ext.resolveModule f n
    | none => some f

/-- The registry selection of `requireModule` (source lines 322-335). -/
def selectRegistry (isInternal : Bool) (modulePath : String) (st : RT) : RegistrySel :=
  if isInternal then .internal
  else if (lookupStr modulePath st.moduleRegistry).isSome
          || st.isolatedModuleRegistry.isNone then .main
  else .isolated

/-- `requireModule` (source lines 285-364): manual-mock redirect, core-module
short circuit, resolution, registry selection, cache hit, and on a miss the
pre-registration of a fresh record followed by the loader
(`loadAndRegister`).  `moduleName = none` models a call without a module
name (root load), in which case the resolved path is `from` itself
(`_resolveModule`, source line 622). -/
def requireModule (ext : Ext) (f : String) (moduleName : Option String)
    (isInternal : Bool) (isRequireActual : Bool) (st : RT) :
    Except (JSError × RT) (JSValue × RT) :=
  if isCoreName ext moduleName then
    .ok (requireCoreModule ext (moduleName.getD ""), st)
  else
    match resolvePath ext f moduleName
        (manualRedirect ext f moduleName isInternal isRequireActual st) with
    | none => .error (.moduleNotFound (moduleNotFoundMessage f (moduleName.getD "")), st)
    | some modulePath =>
      match lookupStr modulePath (getModuleRegistry (selectRegistry isInternal modulePath st) st) with
      | some m => .ok (m.exports, st)
      | none => loadAndRegister ext (selectRegistry isInternal modulePath st) modulePath st

/-- `requireActual` (source lines 370-372). -/
def requireActual (ext : Ext) (f n : String) (st : RT) :
    Except (JSError × RT) (JSValue × RT) :=
  requireModule ext f (some n) false true st

/-- The target resolution of `_generateMock` (source lines 784-786): the
stub module when one exists, else the resolved real path; `none` models the
MODULE_NOT_FOUND throw. -/
def resolveGenerateTarget (ext : Ext) (f n : String) : Option String :=
  match ext.resolveStubModuleName f n with
  | some p => some p
  | none => ext.resolveModule f n

/-- The automock generator adapter `_generateMock` (source lines 783-821).
When the metadata cache misses: seed the cache with the empty metadata, swap
the live mock and module registries for fresh empty ones, load the real
module into the throwaway frame, swap the saved registries back, then ask
the mocker for metadata over the obtained exports.  The swap back happens
only after a normal return of the load, exactly as in the source.
`generateFromMetadata` returns a freshly created mock object, modelled as a
fresh allocation. -/
def generateMock (ext : Ext) (f n : String) (st : RT) :
    Except (JSError × RT) (JSValue × RT) :=
  match resolveGenerateTarget ext f n with
  | none => .error (.moduleNotFound (moduleNotFoundMessage f n), st)
  | some modulePath =>
    if (lookupStr modulePath st.mockMetaDataCache).isSome then
      .ok ((alloc st).1, (alloc st).2)
    else
      let st₁ := { st with
        mockMetaDataCache := setKey modulePath ext.emptyMetadata st.mockMetaDataCache }
      let origMockRegistry := st₁.mockRegistry
      let origModuleRegistry := st₁.moduleRegistry
      let st₂ := { st₁ with mockRegistry := [], moduleRegistry := [] }
      match requireModule ext f (some n) false false st₂ with
      | .error e => .error e
      | .ok (moduleExports, st₃) =>
        let st₄ := { st₃ with mockRegistry := origMockRegistry,
                              moduleRegistry := origModuleRegistry }
        match ext.getMetadata moduleExports with
        | none => .error (.generic (failMetadataMessage modulePath), st₄)
        | some md =>
          let st₅ := { st₄ with mockMetaDataCache := setKey modulePath md st₄.mockMetaDataCache }
          .ok ((alloc st₅).1, (alloc st₅).2)

/-- The mock registry the source captures as
`this._isolatedMockRegistry || this._mockRegistry` (line 390). -/
def mockRegistryLive (st : RT) : List (String × JSValue) :=
  match st.isolatedMockRegistry with
  | some iso => iso
  | none => st.mockRegistry

/-- Write through the captured mock registry reference. -/
def setMockRegistryLive (reg : List (String × JSValue)) (st : RT) : RT :=
  match st.isolatedMockRegistry with
  | some _ => { st with isolatedMockRegistry := some reg }
  | none => { st with mockRegistry := reg }

/-- The isolated mock registry lookup (first condition of `requireMock`,
source lines 381-385). -/
def isolatedMockLookup (moduleID : String) (st : RT) : Option JSValue :=
  match st.isolatedMockRegistry with
  | some iso => lookupStr moduleID iso
  | none => none

/-- The mock-path resolution of `requireMock` (source lines 398-404):
resolve the manual mock or stub when the resolver found one, else the
requested name; `none` models the MODULE_NOT_FOUND throw. -/
def resolveMockPath (ext : Ext) (f n : String) : Option String :=
  match ext.getMockModule f n with
  | some m => ext.resolveModule f m
  | none => ext.resolveModule f n

/-- The manual-mock decision of `requireMock` (source lines 406-433):
whether the load is a manual mock, and the module path after the adjacent
`__mocks__` directory probe. -/
def manualMockTarget (ext : Ext) (f n : String) (modulePath₀ : String) : Bool × String :=
  if (ext.getMockModule f n).isSome && (ext.resolveStubModuleName f n).isNone then
    (true, modulePath₀)
  else
    match ext.mocksAdjacent modulePath₀ with
    | some potential => (true, potential)
    | none => (false, modulePath₀)

/-- The manual-mock branch of `requireMock` (source lines 434-452): load the
mock file through a fresh record and store its exports under the module ID
in the captured mock registry. -/
def requireMockManual (ext : Ext) (moduleID modulePath : String) (st : RT) :
    Except (JSError × RT) (JSValue × RT) :=
  let freshExports := (alloc st).1
  let st₁ := (alloc st).2
  let localModule : ModuleRecord :=
    { id := modulePath, filename := modulePath, exports := freshExports, loaded := false }
  match loadModule ext localModule st₁ with
  | .error e => .error e
  | .ok (lm₁, st₂) =>
    .ok (lm₁.exports, setMockRegistryLive (setKey moduleID lm₁.exports (mockRegistryLive st₂)) st₂)

/-- The automock branch of `requireMock` (source lines 453-455). -/
def requireMockGenerate (ext : Ext) (f n moduleID : String) (st : RT) :
    Except (JSError × RT) (JSValue × RT) :=
  match generateMock ext f n st with
  | .error e => .error e
  | .ok (mockObj, st₁) =>
    .ok (mockObj, setMockRegistryLive (setKey moduleID mockObj (mockRegistryLive st₁)) st₁)

/-- `requireMock` (source lines 374-459): isolated then main registry hit
checks (both truthiness based), the registered factory branch with its
invocation counting, manual-mock or stub resolution with adjacent
`__mocks__` probing, and the automock generation fallback.  The final
`return mockRegistry.get(moduleID)` of the source returns the value that was
just stored, which is returned directly here. -/
def requireMock (ext : Ext) (f n : String) (st : RT) :
    Except (JSError × RT) (JSValue × RT) :=
  let moduleID := ext.getModuleID st.virtualMocks f (some n)
  if truthyOpt (isolatedMockLookup moduleID st) then
    .ok ((isolatedMockLookup moduleID st).getD ⟨0, false⟩, st)
  else if truthyOpt (lookupStr moduleID st.mockRegistry) then
    .ok ((lookupStr moduleID st.mockRegistry).getD ⟨0, false⟩, st)
  else
    match lookupStr moduleID st.mockFactories with
    | some factory =>
      let count := (lookupStr moduleID st.mockFactoryCalls).getD 0
      let value := factory count
      let st₁ := { st with mockFactoryCalls := setKey moduleID (count + 1) st.mockFactoryCalls }
      .ok (value, setMockRegistryLive (setKey moduleID value (mockRegistryLive st₁)) st₁)
    | none =>
      match resolveMockPath ext f n with
      | none => .error (.moduleNotFound (moduleNotFoundMessage f n), st)
      | some modulePath₀ =>
        if (manualMockTarget ext f n modulePath₀).1 then
          requireMockManual ext moduleID (manualMockTarget ext f n modulePath₀).2 st
        else
          requireMockGenerate ext f n moduleID st

/-- `path.delimiter` on the reference platform. -/
def pathDelimiter : String := ":"

/-- The resolution policy `_shouldMock` (source lines 823-883): explicit
decision first, then the automock flag, core-module and transitive-cache
short circuit, then the memoized computation with the unmock-pattern test
and the transitive-unmock rule over the node_modules boundary. -/
def shouldMock (ext : Ext) (f n : String) (st : RT) :
    Except (JSError × RT) (Bool × RT) :=
  let moduleID := ext.getModuleID st.virtualMocks f (some n)
  let key := f ++ pathDelimiter ++ moduleID
  match lookupStr moduleID st.explicitShouldMock with
  | some b => .ok (b, st)
  | none =>
    if !st.shouldAutoMock || ext.isCoreModule n
        || decide (lookupStr key st.shouldUnmockTransitiveDependenciesCache = some true) then
      .ok (false, st)
    else
      match lookupStr moduleID st.shouldMockModuleCache with
      | some b => .ok (b, st)
      | none =>
        match ext.resolveModule f n with
        | none =>
          match ext.getMockModule f n with
          | some _ =>
            .ok (true, { st with
              shouldMockModuleCache := setKey moduleID true st.shouldMockModuleCache })
          | none => .error (.moduleNotFound (moduleNotFoundMessage f n), st)
        | some modulePath =>
          if ext.hasUnmockList && ext.unmockTest modulePath then
            .ok (false, { st with
              shouldMockModuleCache := setKey moduleID false st.shouldMockModuleCache })
          else
            let currentModuleID := ext.getModuleID st.virtualMocks f none
            if decide (lookupStr currentModuleID st.transitiveShouldMock = some false)
                || (ext.inNodeModules f && ext.inNodeModules modulePath
                    && ((ext.hasUnmockList && ext.unmockTest f)
                        || decide (lookupStr currentModuleID st.explicitShouldMock = some false))) then
              .ok (false, { st with
                transitiveShouldMock := setKey moduleID false st.transitiveShouldMock,
                shouldUnmockTransitiveDependenciesCache :=
                  setKey key true st.shouldUnmockTransitiveDependenciesCache })
            else
              .ok (true, { st with
                shouldMockModuleCache := setKey moduleID true st.shouldMockModuleCache })

/-- The catch block of `requireModuleOrMock` (source lines 511-524): a
MODULE_NOT_FOUND error gets the sibling-extension hint appended to its
message and is rethrown; every other outcome passes through. -/
def hintNotFound (ext : Ext) (f n : String)
    (r : Except (JSError × RT) (JSValue × RT)) : Except (JSError × RT) (JSValue × RT) :=
  match r with
  | .error (.moduleNotFound msg, st) =>
    match ext.siblingHint f n with
    | some hint => .error (.moduleNotFound (msg ++ hint), st)
    | none => .error (.moduleNotFound msg, st)
  | r => r

/-- The require surface `requireModuleOrMock` (source lines 504-525). -/
def requireModuleOrMock (ext : Ext) (f n : String) (st : RT) :
    Except (JSError × RT) (JSValue × RT) :=
  hintNotFound ext f n
    (match shouldMock ext f n st with
     | .error e => .error e
     | .ok (true, st₁) => requireMock ext f n st₁
     | .ok (false, st₁) => requireModule ext f (some n) false false st₁)

/-- `setMock` (source lines 590-607).  Registering a factory is modelled by
storing the factory and resetting its invocation count, since a freshly
supplied closure has not yet been invoked. -/
def setMock (ext : Ext) (f n : String) (mockFactory : Nat → JSValue)
    (virtual : Bool) (st : RT) : RT :=
  let st₁ := if virtual then
      { st with virtualMocks := setKey (ext.getModulePath f n) true st.virtualMocks }
    else st
  let moduleID := ext.getModuleID st₁.virtualMocks f (some n)
  { st₁ with
    explicitShouldMock := setKey moduleID true st₁.explicitShouldMock,
    mockFactories := setKey moduleID mockFactory st₁.mockFactories,
    mockFactoryCalls := setKey moduleID 0 st₁.mockFactoryCalls }

/-- `resetModules` (source lines 540-544): discard the isolated registries
and clear the mock and module registries.  The environment-side mock
clearing and fake-timer reset act on the external environment only. -/
def resetModules (st : RT) : RT :=
  { st with
    isolatedModuleRegistry := none,
    isolatedMockRegistry := none,
    mockRegistry := [],
    moduleRegistry := [] }

/-- Installation of fresh isolated registries (source lines 533-534). -/
def enterIsolation (st : RT) : RT :=
  { st with isolatedModuleRegistry := some [], isolatedMockRegistry := some [] }

/-- `isolateModules` (source lines 527-538): reject nesting, install fresh
isolated registries, run `fn`, and null both isolated registries after `fn`
returns.  As in the source there is no try/finally: a throw from `fn`
propagates with whatever the isolated registries held at the throw. -/
def isolateModules (fn : RT → Except (JSError × RT) RT) (st : RT) :
    Except (JSError × RT) RT :=
  if st.isolatedModuleRegistry.isSome || st.isolatedMockRegistry.isSome then
    .error (.generic "isolateModules cannot be nested inside another isolateModules.", st)
  else
    match fn (enterIsolation st) with
    | .ok st₁ => .ok { st₁ with isolatedModuleRegistry := none, isolatedMockRegistry := none }
    | .error e => .error e

/-- One operation of the require surface performed by the body of an
`isolateModules` callback. -/
inductive ReqOp where
  | require (f n : String)
  | requireMockOp (f n : String)

/-- Run one require-surface operation for its state effect. -/
def runOp (ext : Ext) (op : ReqOp) (st : RT) : Except (JSError × RT) RT :=
  match op with
  | .require f n =>
    match requireModuleOrMock ext f n st with
    | .ok (_, st₁) => .ok st₁
    | .error e => .error e
  | .requireMockOp f n =>
    match requireMock ext f n st with
    | .ok (_, st₁) => .ok st₁
    | .error e => .error e

/-- Run a sequence of require-surface operations, stopping at the first
thrown error, as a callback body for `isolateModules`. -/
def runOps (ext : Ext) (ops : List ReqOp) (st : RT) : Except (JSError × RT) RT :=
  match ops with
  | [] => .ok st
  | op :: rest =>
    match runOp ext op st with
    | .ok st₁ => runOps ext rest st₁
    | .error e => .error e

end Jest

namespace Jest

/-- State carried by a require-surface outcome, whether returned or thrown. -/
def resState : Except (JSError × RT) (α × RT) → RT
  | .ok (_, st) => st
  | .error (_, st) => st

theorem lookupStr_setKey_self (k : String) (v : α) (l : List (String × α)) :
    lookupStr k (setKey k v l) = some v := by
  induction l with
  | nil => simp [setKey, lookupStr]
  | cons p t ih =>
    by_cases h : p.1 = k
    · simp [setKey, h, lookupStr]
    · simp [setKey, h, lookupStr, ih]

theorem lookupStr_setKey_ne (k k₁ : String) (v : α) (l : List (String × α)) (h : k₁ ≠ k) :
    lookupStr k₁ (setKey k v l) = lookupStr k₁ l := by
  induction l with
  | nil => simp [setKey, lookupStr, Ne.symm h]
  | cons p t ih =>
    by_cases hp : p.1 = k
    · subst hp
      simp [setKey, lookupStr, h, Ne.symm h]
    · simp [setKey, hp, lookupStr, ih]

theorem hintNotFound_ok_iff (ext : Ext) (f n : String)
    (r : Except (JSError × RT) (JSValue × RT)) (p : JSValue × RT) :
    hintNotFound ext f n r = .ok p ↔ r = .ok p := by
  unfold hintNotFound
  cases r with
  | ok q => simp
  | error e =>
    obtain ⟨err, st⟩ := e
    cases err <;> simp
    cases ext.siblingHint f n <;> simp

/-- The executor touches only the reentrancy pair, the error log and the
exit code: every other field of the state survives every exit path. -/
theorem execModule_frame (ext : Ext) (lm : ModuleRecord) (st : RT) :
    (resState (execModule ext lm st)).moduleRegistry = st.moduleRegistry ∧
    (resState (execModule ext lm st)).mockRegistry = st.mockRegistry ∧
    (resState (execModule ext lm st)).isolatedModuleRegistry = st.isolatedModuleRegistry ∧
    (resState (execModule ext lm st)).isolatedMockRegistry = st.isolatedMockRegistry ∧
    (resState (execModule ext lm st)).internalModuleRegistry = st.internalModuleRegistry ∧
    (resState (execModule ext lm st)).explicitShouldMock = st.explicitShouldMock ∧
    (resState (execModule ext lm st)).shouldAutoMock = st.shouldAutoMock ∧
    (resState (execModule ext lm st)).shouldMockModuleCache = st.shouldMockModuleCache ∧
    (resState (execModule ext lm st)).shouldUnmockTransitiveDependenciesCache
      = st.shouldUnmockTransitiveDependenciesCache ∧
    (resState (execModule ext lm st)).transitiveShouldMock = st.transitiveShouldMock ∧
    (resState (execModule ext lm st)).virtualMocks = st.virtualMocks ∧
    (resState (execModule ext lm st)).mockFactories = st.mockFactories ∧
    (resState (execModule ext lm st)).mockFactoryCalls = st.mockFactoryCalls ∧
    (resState (execModule ext lm st)).mockMetaDataCache = st.mockMetaDataCache ∧
    (resState (execModule ext lm st)).nextToken = st.nextToken := by
  unfold execModule
  cases ext.globalObj with
  | none => simp [resState]
  | some gl =>
    simp only
    split
    · simp [resState]
    · cases checkExtraGlobals ext.extraGlobals gl with
      | some g => simp [resState]
      | none =>
        cases ext.evalModule lm.filename with
        | none => simp [resState]
        | some r => cases r <;> simp [resState]

/-- On a successful execution with a live script runner, the reentrancy pair
is restored from the saved locals. -/
theorem execModule_ok_reentrancy (ext : Ext) (lm lm₁ : ModuleRecord) (st st₁ : RT)
    (hrs : ext.runScriptOk = true)
    (h : execModule ext lm st = .ok (lm₁, st₁)) :
    st₁.currentlyExecutingModulePath = st.currentlyExecutingModulePath ∧
    st₁.isCurrentlyExecutingManualMock = st.isCurrentlyExecutingManualMock := by
  unfold execModule at h
  cases hg : ext.globalObj with
  | none =>
    rw [hg] at h
    simp only [Except.ok.injEq, Prod.mk.injEq] at h
    obtain ⟨-, h2⟩ := h
    subst h2
    exact ⟨rfl, rfl⟩
  | some gl =>
    rw [hg] at h
    simp only [hrs] at h
    simp only [Bool.true_eq_false, if_false] at h
    cases hc : checkExtraGlobals ext.extraGlobals gl with
    | some g => rw [hc] at h; simp at h
    | none =>
      rw [hc] at h
      cases he : ext.evalModule lm.filename with
      | none => rw [he] at h; simp at h
      | some r =>
        rw [he] at h
        simp only [Except.ok.injEq, Prod.mk.injEq] at h
        obtain ⟨-, h2⟩ := h
        subst h2
        exact ⟨rfl, rfl⟩

theorem loadModule_frame (ext : Ext) (lm : ModuleRecord) (st : RT) :
    (resState (loadModule ext lm st)).moduleRegistry = st.moduleRegistry ∧
    (resState (loadModule ext lm st)).mockRegistry = st.mockRegistry ∧
    (resState (loadModule ext lm st)).isolatedModuleRegistry = st.isolatedModuleRegistry ∧
    (resState (loadModule ext lm st)).isolatedMockRegistry = st.isolatedMockRegistry ∧
    (resState (loadModule ext lm st)).internalModuleRegistry = st.internalModuleRegistry ∧
    (resState (loadModule ext lm st)).explicitShouldMock = st.explicitShouldMock ∧
    (resState (loadModule ext lm st)).shouldAutoMock = st.shouldAutoMock ∧
    (resState (loadModule ext lm st)).shouldMockModuleCache = st.shouldMockModuleCache ∧
    (resState (loadModule ext lm st)).shouldUnmockTransitiveDependenciesCache
      = st.shouldUnmockTransitiveDependenciesCache ∧
    (resState (loadModule ext lm st)).transitiveShouldMock = st.transitiveShouldMock ∧
    (resState (loadModule ext lm st)).virtualMocks = st.virtualMocks ∧
    (resState (loadModule ext lm st)).mockFactories = st.mockFactories ∧
    (resState (loadModule ext lm st)).mockFactoryCalls = st.mockFactoryCalls ∧
    (resState (loadModule ext lm st)).mockMetaDataCache = st.mockMetaDataCache ∧
    (resState (loadModule ext lm st)).nextToken = st.nextToken := by
  unfold loadModule
  split
  · simp [resState]
  · split
    · simp [resState]
    · cases hx : execModule ext lm st with
      | error e =>
        have := execModule_frame ext lm st
        rw [hx] at this
        simpa [resState] using this
      | ok p =>
        obtain ⟨lm₁, st₁⟩ := p
        have := execModule_frame ext lm st
        rw [hx] at this
        simpa [resState] using this

theorem loadModule_ok_reentrancy (ext : Ext) (lm lm₁ : ModuleRecord) (st st₁ : RT)
    (hrs : ext.runScriptOk = true)
    (h : loadModule ext lm st = .ok (lm₁, st₁)) :
    st₁.currentlyExecutingModulePath = st.currentlyExecutingModulePath ∧
    st₁.isCurrentlyExecutingManualMock = st.isCurrentlyExecutingManualMock := by
  unfold loadModule at h
  split at h
  · simp at h
    rw [← h.2]
    exact ⟨rfl, rfl⟩
  · split at h
    · simp at h
      rw [← h.2]
      exact ⟨rfl, rfl⟩
    · cases hx : execModule ext lm st with
      | error e => rw [hx] at h; simp at h
      | ok p =>
        obtain ⟨lm₂, st₂⟩ := p
        rw [hx] at h
        simp at h
        rw [← h.2]
        exact execModule_ok_reentrancy ext lm lm₂ st st₂ hrs hx

end Jest

namespace Jest

/-- Agreement on every field that `requireModule` leaves untouched when it
is not an internal load: the mock-side registries, the policy inputs and
the factory bookkeeping. -/
def MockSideEq (a b : RT) : Prop :=
  a.mockRegistry = b.mockRegistry ∧
  a.isolatedMockRegistry = b.isolatedMockRegistry ∧
  a.explicitShouldMock = b.explicitShouldMock ∧
  a.shouldAutoMock = b.shouldAutoMock ∧
  a.shouldMockModuleCache = b.shouldMockModuleCache ∧
  a.shouldUnmockTransitiveDependenciesCache = b.shouldUnmockTransitiveDependenciesCache ∧
  a.transitiveShouldMock = b.transitiveShouldMock ∧
  a.virtualMocks = b.virtualMocks ∧
  a.mockFactories = b.mockFactories ∧
  a.mockFactoryCalls = b.mockFactoryCalls ∧
  a.mockMetaDataCache = b.mockMetaDataCache

/-- Agreement on exactly the inputs the policy `shouldMock` reads. -/
def PolicyEq (a b : RT) : Prop :=
  a.explicitShouldMock = b.explicitShouldMock ∧
  a.shouldAutoMock = b.shouldAutoMock ∧
  a.shouldMockModuleCache = b.shouldMockModuleCache ∧
  a.shouldUnmockTransitiveDependenciesCache = b.shouldUnmockTransitiveDependenciesCache ∧
  a.transitiveShouldMock = b.transitiveShouldMock ∧
  a.virtualMocks = b.virtualMocks

theorem mockSideEq_rfl (st : RT) : MockSideEq st st := by
  simp [MockSideEq]

theorem mockSideEq_trans {a b c : RT} (h₁ : MockSideEq a b) (h₂ : MockSideEq b c) :
    MockSideEq a c := by
  unfold MockSideEq at *
  obtain ⟨p1, p2, p3, p4, p5, p6, p7, p8, p9, p10, p11⟩ := h₁
  obtain ⟨q1, q2, q3, q4, q5, q6, q7, q8, q9, q10, q11⟩ := h₂
  exact ⟨p1.trans q1, p2.trans q2, p3.trans q3, p4.trans q4, p5.trans q5, p6.trans q6,
    p7.trans q7, p8.trans q8, p9.trans q9, p10.trans q10, p11.trans q11⟩

theorem mockSideEq_policy {a b : RT} (h : MockSideEq a b) : PolicyEq a b := by
  unfold MockSideEq at h
  exact ⟨h.2.2.1, h.2.2.2.1, h.2.2.2.2.1, h.2.2.2.2.2.1, h.2.2.2.2.2.2.1, h.2.2.2.2.2.2.2.1⟩

theorem policyEq_rfl (st : RT) : PolicyEq st st := by
  simp [PolicyEq]

theorem policyEq_trans {a b c : RT} (h₁ : PolicyEq a b) (h₂ : PolicyEq b c) :
    PolicyEq a c := by
  unfold PolicyEq at *
  obtain ⟨p1, p2, p3, p4, p5, p6⟩ := h₁
  obtain ⟨q1, q2, q3, q4, q5, q6⟩ := h₂
  exact ⟨p1.trans q1, p2.trans q2, p3.trans q3, p4.trans q4, p5.trans q5, p6.trans q6⟩

theorem setModuleRegistry_mockSide (sel : RegistrySel) (reg : List (String × ModuleRecord))
    (st : RT) : MockSideEq (setModuleRegistry sel reg st) st := by
  cases sel <;> simp [setModuleRegistry, MockSideEq]

theorem setModuleRegistry_reentrancy (sel : RegistrySel) (reg : List (String × ModuleRecord))
    (st : RT) :
    (setModuleRegistry sel reg st).currentlyExecutingModulePath = st.currentlyExecutingModulePath ∧
    (setModuleRegistry sel reg st).isCurrentlyExecutingManualMock = st.isCurrentlyExecutingManualMock := by
  cases sel <;> simp [setModuleRegistry]

theorem alloc_mockSide (st : RT) : MockSideEq (alloc st).2 st := by
  simp [alloc, MockSideEq]

theorem execModule_mockSide (ext : Ext) (lm : ModuleRecord) (st : RT) :
    MockSideEq (resState (execModule ext lm st)) st := by
  have h := execModule_frame ext lm st
  exact ⟨h.2.1, h.2.2.2.1, h.2.2.2.2.2.1, h.2.2.2.2.2.2.1, h.2.2.2.2.2.2.2.1,
    h.2.2.2.2.2.2.2.2.1, h.2.2.2.2.2.2.2.2.2.1, h.2.2.2.2.2.2.2.2.2.2.1,
    h.2.2.2.2.2.2.2.2.2.2.2.1, h.2.2.2.2.2.2.2.2.2.2.2.2.1, h.2.2.2.2.2.2.2.2.2.2.2.2.2.1⟩

theorem loadModule_mockSide (ext : Ext) (lm : ModuleRecord) (st : RT) :
    MockSideEq (resState (loadModule ext lm st)) st := by
  have h := loadModule_frame ext lm st
  exact ⟨h.2.1, h.2.2.2.1, h.2.2.2.2.2.1, h.2.2.2.2.2.2.1, h.2.2.2.2.2.2.2.1,
    h.2.2.2.2.2.2.2.2.1, h.2.2.2.2.2.2.2.2.2.1, h.2.2.2.2.2.2.2.2.2.2.1,
    h.2.2.2.2.2.2.2.2.2.2.2.1, h.2.2.2.2.2.2.2.2.2.2.2.2.1, h.2.2.2.2.2.2.2.2.2.2.2.2.2.1⟩

theorem loadModule_moduleRegistry (ext : Ext) (lm : ModuleRecord) (st : RT) :
    (resState (loadModule ext lm st)).moduleRegistry = st.moduleRegistry ∧
    (resState (loadModule ext lm st)).isolatedModuleRegistry = st.isolatedModuleRegistry := by
  have h := loadModule_frame ext lm st
  exact ⟨h.1, h.2.2.1⟩

/-- The miss path leaves the whole mock side of the state unchanged on
every outcome. -/
theorem loadAndRegister_mockSide (ext : Ext) (sel : RegistrySel) (modulePath : String)
    (st : RT) : MockSideEq (resState (loadAndRegister ext sel modulePath st)) st := by
  have h₂ : MockSideEq
      (setModuleRegistry sel
        (setKey modulePath
          { id := modulePath, filename := modulePath, exports := (alloc st).1, loaded := false }
          (getModuleRegistry sel (alloc st).2)) (alloc st).2) st :=
    mockSideEq_trans (setModuleRegistry_mockSide _ _ _) (alloc_mockSide st)
  have h₃ := loadModule_mockSide ext
      { id := modulePath, filename := modulePath, exports := (alloc st).1, loaded := false }
      (setModuleRegistry sel
        (setKey modulePath
          { id := modulePath, filename := modulePath, exports := (alloc st).1, loaded := false }
          (getModuleRegistry sel (alloc st).2)) (alloc st).2)
  unfold loadAndRegister
  dsimp only
  split
  next e heq =>
    rw [heq] at h₃
    simp only [resState] at h₃ ⊢
    exact mockSideEq_trans h₃ h₂
  next lm₁ st₃ heq =>
    rw [heq] at h₃
    simp only [resState] at h₃ ⊢
    exact mockSideEq_trans (mockSideEq_trans (setModuleRegistry_mockSide _ _ _) h₃) h₂

/-- A non-internal `requireModule` call leaves the whole mock side of the
state unchanged on every outcome. -/
theorem requireModule_mockSide (ext : Ext) (f : String) (mn : Option String) (ia : Bool)
    (st : RT) : MockSideEq (resState (requireModule ext f mn false ia st)) st := by
  unfold requireModule
  split
  · exact mockSideEq_rfl st
  · split
    · exact mockSideEq_rfl st
    · split
      · exact mockSideEq_rfl st
      · exact loadAndRegister_mockSide ext _ _ st

end Jest

namespace Jest

theorem loadModule_ok_regs {ext : Ext} {lm lm₁ : ModuleRecord} {st st₁ : RT}
    (h : loadModule ext lm st = .ok (lm₁, st₁)) :
    st₁.moduleRegistry = st.moduleRegistry ∧
    st₁.isolatedModuleRegistry = st.isolatedModuleRegistry := by
  have hf := loadModule_frame ext lm st
  rw [h] at hf
  simp only [resState] at hf
  exact ⟨hf.1, hf.2.2.1⟩

theorem loadModule_error_regs {ext : Ext} {lm : ModuleRecord} {st : RT} {e : JSError}
    {st₁ : RT} (h : loadModule ext lm st = .error (e, st₁)) :
    st₁.moduleRegistry = st.moduleRegistry ∧
    st₁.isolatedModuleRegistry = st.isolatedModuleRegistry := by
  have hf := loadModule_frame ext lm st
  rw [h] at hf
  simp only [resState] at hf
  exact ⟨hf.1, hf.2.2.1⟩

theorem alloc_reentrancy (st : RT) :
    (alloc st).2.currentlyExecutingModulePath = st.currentlyExecutingModulePath ∧
    (alloc st).2.isCurrentlyExecutingManualMock = st.isCurrentlyExecutingManualMock := by
  simp [alloc]

/-- The miss path restores the reentrancy pair whenever it completes
normally under a live script runner. -/
theorem loadAndRegister_ok_reentrancy (ext : Ext) (sel : RegistrySel) (modulePath : String)
    (st : RT) (v : JSValue) (st₁ : RT)
    (hrs : ext.runScriptOk = true)
    (h : loadAndRegister ext sel modulePath st = .ok (v, st₁)) :
    st₁.currentlyExecutingModulePath = st.currentlyExecutingModulePath ∧
    st₁.isCurrentlyExecutingManualMock = st.isCurrentlyExecutingManualMock := by
  unfold loadAndRegister at h
  dsimp only at h
  split at h
  · simp at h
  next lm₁ st₃ heq =>
    simp only [Except.ok.injEq, Prod.mk.injEq] at h
    obtain ⟨-, h2⟩ := h
    subst h2
    have hre := loadModule_ok_reentrancy ext _ _ _ _ hrs heq
    have hs₄ := setModuleRegistry_reentrancy sel (setKey modulePath lm₁ (getModuleRegistry sel st₃)) st₃
    refine ⟨?_, ?_⟩
    · rw [hs₄.1, hre.1]
      cases sel <;> simp [setModuleRegistry, alloc]
    · rw [hs₄.2, hre.2]
      cases sel <;> simp [setModuleRegistry, alloc]

/-- A successful non-internal `requireModule` call restores the reentrancy
pair when the script runner is live. -/
theorem requireModule_ok_reentrancy (ext : Ext) (f : String) (mn : Option String) (ia : Bool)
    (st : RT) (v : JSValue) (st₁ : RT)
    (hrs : ext.runScriptOk = true)
    (h : requireModule ext f mn false ia st = .ok (v, st₁)) :
    st₁.currentlyExecutingModulePath = st.currentlyExecutingModulePath ∧
    st₁.isCurrentlyExecutingManualMock = st.isCurrentlyExecutingManualMock := by
  unfold requireModule at h
  split at h
  · simp only [Except.ok.injEq, Prod.mk.injEq] at h
    obtain ⟨-, h2⟩ := h
    subst h2
    exact ⟨rfl, rfl⟩
  · split at h
    · simp at h
    next modulePath heq =>
      split at h
      · simp only [Except.ok.injEq, Prod.mk.injEq] at h
        obtain ⟨-, h2⟩ := h
        subst h2
        exact ⟨rfl, rfl⟩
      · exact loadAndRegister_ok_reentrancy ext _ _ st v st₁ hrs h

/-- The miss path through the isolated registry never touches the main
module registry and keeps the isolated registry present. -/
theorem loadAndRegister_iso (ext : Ext) (modulePath : String) (st : RT) :
    (resState (loadAndRegister ext .isolated modulePath st)).moduleRegistry = st.moduleRegistry ∧
    (resState (loadAndRegister ext .isolated modulePath st)).isolatedModuleRegistry.isSome = true := by
  unfold loadAndRegister
  dsimp only
  split
  next e heq =>
    obtain ⟨e₁, e₂⟩ := e
    have hr := loadModule_error_regs heq
    simp only [resState, setModuleRegistry, alloc] at hr ⊢
    exact ⟨hr.1, by rw [hr.2]; simp⟩
  next lm₁ st₃ heq =>
    have hr := loadModule_ok_regs heq
    simp only [resState, setModuleRegistry, alloc] at hr ⊢
    exact ⟨hr.1, rfl⟩

theorem selectRegistry_isolated_of_miss (modulePath : String) (st : RT)
    (hIso : st.isolatedModuleRegistry.isSome = true)
    (hmiss : lookupStr modulePath
      (getModuleRegistry (selectRegistry false modulePath st) st) = none) :
    selectRegistry false modulePath st = .isolated := by
  unfold selectRegistry at hmiss ⊢
  by_cases hm : (lookupStr modulePath st.moduleRegistry).isSome
  · exfalso
    simp only [Bool.false_eq_true, if_false, hm, Bool.true_or, if_true] at hmiss
    simp only [getModuleRegistry] at hmiss
    rw [hmiss] at hm
    simp at hm
  · have hnone : st.isolatedModuleRegistry.isNone = false := by
      cases hiso : st.isolatedModuleRegistry
      · rw [hiso] at hIso; simp at hIso
      · simp
    simp [hm, hnone]

/-- Under an active isolation scope, a non-internal `requireModule` call
leaves the main module registry untouched and keeps the isolated registry
present, on every outcome. -/
theorem requireModule_iso (ext : Ext) (f : String) (mn : Option String) (ia : Bool) (st : RT)
    (hIso : st.isolatedModuleRegistry.isSome = true) :
    (resState (requireModule ext f mn false ia st)).moduleRegistry = st.moduleRegistry ∧
    (resState (requireModule ext f mn false ia st)).isolatedModuleRegistry.isSome = true := by
  unfold requireModule
  split
  · exact ⟨rfl, hIso⟩
  · split
    · exact ⟨rfl, hIso⟩
    next modulePath heq =>
      split
      · exact ⟨rfl, hIso⟩
      next hmiss =>
        rw [selectRegistry_isolated_of_miss modulePath st hIso hmiss]
        exact loadAndRegister_iso ext modulePath st

end Jest

namespace Jest

/-- Agreement on every field `_generateMock` leaves untouched on all paths:
the policy inputs, the factory bookkeeping and the isolated mock registry. -/
def GenFrameEq (a b : RT) : Prop :=
  a.explicitShouldMock = b.explicitShouldMock ∧
  a.shouldAutoMock = b.shouldAutoMock ∧
  a.shouldMockModuleCache = b.shouldMockModuleCache ∧
  a.shouldUnmockTransitiveDependenciesCache = b.shouldUnmockTransitiveDependenciesCache ∧
  a.transitiveShouldMock = b.transitiveShouldMock ∧
  a.virtualMocks = b.virtualMocks ∧
  a.mockFactories = b.mockFactories ∧
  a.mockFactoryCalls = b.mockFactoryCalls ∧
  a.isolatedMockRegistry = b.isolatedMockRegistry

theorem genFrameEq_rfl (st : RT) : GenFrameEq st st := by
  simp [GenFrameEq]

theorem mockSideEq_gen {a b : RT} (h : MockSideEq a b) : GenFrameEq a b := by
  unfold MockSideEq at h
  exact ⟨h.2.2.1, h.2.2.2.1, h.2.2.2.2.1, h.2.2.2.2.2.1, h.2.2.2.2.2.2.1,
    h.2.2.2.2.2.2.2.1, h.2.2.2.2.2.2.2.2.1, h.2.2.2.2.2.2.2.2.2.1, h.2.1⟩

theorem genFrameEq_policy {a b : RT} (h : GenFrameEq a b) : PolicyEq a b :=
  ⟨h.1, h.2.1, h.2.2.1, h.2.2.2.1, h.2.2.2.2.1, h.2.2.2.2.2.1⟩

theorem requireModule_ok_mockSide {ext : Ext} {f : String} {mn : Option String} {ia : Bool}
    {st : RT} {v : JSValue} {st₁ : RT}
    (h : requireModule ext f mn false ia st = .ok (v, st₁)) : MockSideEq st₁ st := by
  have hf := requireModule_mockSide ext f mn ia st
  rw [h] at hf
  simpa only [resState] using hf

theorem requireModule_error_mockSide {ext : Ext} {f : String} {mn : Option String} {ia : Bool}
    {st : RT} {e : JSError} {st₁ : RT}
    (h : requireModule ext f mn false ia st = .error (e, st₁)) : MockSideEq st₁ st := by
  have hf := requireModule_mockSide ext f mn ia st
  rw [h] at hf
  simpa only [resState] using hf

/-- `_generateMock` preserves the policy inputs, factory bookkeeping and the
isolated mock registry on every outcome. -/
theorem generateMock_frame (ext : Ext) (f n : String) (st : RT) :
    GenFrameEq (resState (generateMock ext f n st)) st := by
  unfold generateMock
  split
  · exact genFrameEq_rfl st
  next modulePath heq =>
    dsimp only
    split
    · simp [resState, alloc, GenFrameEq]
    · split
      next e heq₂ =>
        obtain ⟨e₁, e₂⟩ := e
        have hm := requireModule_error_mockSide heq₂
        simp only [resState]
        have h9 := mockSideEq_gen hm
        exact h9
      next mv st₃ heq₂ =>
        have hm := requireModule_ok_mockSide heq₂
        split
        · simp only [resState]
          have h9 := mockSideEq_gen hm
          exact h9
        · simp only [resState]
          have h9 := mockSideEq_gen hm
          exact h9

/-- When `_generateMock` returns normally, the live mock and module
registries afterwards are the maps saved before the throwaway frame. -/
theorem generateMock_ok_registries {ext : Ext} {f n : String} {st : RT} {v : JSValue}
    {st₁ : RT} (h : generateMock ext f n st = .ok (v, st₁)) :
    st₁.mockRegistry = st.mockRegistry ∧ st₁.moduleRegistry = st.moduleRegistry := by
  unfold generateMock at h
  split at h
  · simp at h
  next modulePath heq =>
    dsimp only at h
    split at h
    · simp only [Except.ok.injEq, Prod.mk.injEq] at h
      obtain ⟨-, h2⟩ := h
      subst h2
      exact ⟨rfl, rfl⟩
    · split at h
      · simp at h
      next mv st₃ heq₂ =>
        split at h
        · simp at h
        · simp only [Except.ok.injEq, Prod.mk.injEq] at h
          obtain ⟨-, h2⟩ := h
          subst h2
          exact ⟨rfl, rfl⟩

/-- When `_generateMock` returns normally inside an isolation scope, the
isolated module registry stays present. -/
theorem generateMock_ok_isoModule {ext : Ext} {f n : String} {st : RT} {v : JSValue}
    {st₁ : RT} (hIso : st.isolatedModuleRegistry.isSome = true)
    (h : generateMock ext f n st = .ok (v, st₁)) :
    st₁.isolatedModuleRegistry.isSome = true := by
  unfold generateMock at h
  split at h
  · simp at h
  next modulePath heq =>
    dsimp only at h
    split at h
    · simp only [Except.ok.injEq, Prod.mk.injEq] at h
      obtain ⟨-, h2⟩ := h
      subst h2
      exact hIso
    · split at h
      · simp at h
      next mv st₃ heq₂ =>
        have hio := requireModule_iso ext f (some n) false
            { st with
              mockMetaDataCache := setKey modulePath ext.emptyMetadata st.mockMetaDataCache,
              mockRegistry := [], moduleRegistry := [] } hIso
        rw [heq₂] at hio
        simp only [resState] at hio
        split at h
        · simp at h
        · simp only [Except.ok.injEq, Prod.mk.injEq] at h
          obtain ⟨-, h2⟩ := h
          subst h2
          exact hio.2

theorem setMockRegistryLive_policy (reg : List (String × JSValue)) (st : RT) :
    PolicyEq (setMockRegistryLive reg st) st := by
  unfold setMockRegistryLive
  split <;> simp [PolicyEq]

theorem setMockRegistryLive_modules (reg : List (String × JSValue)) (st : RT) :
    (setMockRegistryLive reg st).moduleRegistry = st.moduleRegistry ∧
    (setMockRegistryLive reg st).isolatedModuleRegistry = st.isolatedModuleRegistry := by
  unfold setMockRegistryLive
  split <;> simp

theorem setMockRegistryLive_iso (reg : List (String × JSValue)) (st : RT)
    (hIso : st.isolatedMockRegistry.isSome = true) :
    (setMockRegistryLive reg st).mockRegistry = st.mockRegistry ∧
    (setMockRegistryLive reg st).isolatedMockRegistry.isSome = true := by
  unfold setMockRegistryLive
  split
  · simp
  next hnone =>
    rw [hnone] at hIso
    simp at hIso

/-- `requireMock` preserves the policy inputs on every outcome. -/
theorem requireMock_policy (ext : Ext) (f n : String) (st : RT) :
    PolicyEq (resState (requireMock ext f n st)) st := by
  unfold requireMock
  dsimp only
  split
  · exact policyEq_rfl st
  · split
    · exact policyEq_rfl st
    · split
      next factory hfac =>
        simp only [resState]
        exact policyEq_trans (setMockRegistryLive_policy _ _) (by simp [PolicyEq])
      · split
        · exact policyEq_rfl st
        next modulePath₀ heq =>
          split
          · unfold requireMockManual
            dsimp only
            split
            next e heq₂ =>
              obtain ⟨e₁, e₂⟩ := e
              have hl := loadModule_mockSide ext
                  { id := (manualMockTarget ext f n modulePath₀).2,
                    filename := (manualMockTarget ext f n modulePath₀).2,
                    exports := (alloc st).1, loaded := false } (alloc st).2
              rw [heq₂] at hl
              simp only [resState] at hl ⊢
              exact policyEq_trans (mockSideEq_policy hl) (by simp [PolicyEq, alloc])
            next lm₁ st₂ heq₂ =>
              have hl := loadModule_mockSide ext
                  { id := (manualMockTarget ext f n modulePath₀).2,
                    filename := (manualMockTarget ext f n modulePath₀).2,
                    exports := (alloc st).1, loaded := false } (alloc st).2
              rw [heq₂] at hl
              simp only [resState] at hl ⊢
              exact policyEq_trans
                (policyEq_trans (setMockRegistryLive_policy _ _) (mockSideEq_policy hl))
                (by simp [PolicyEq, alloc])
          · unfold requireMockGenerate
            split
            next e heq₂ =>
              obtain ⟨e₁, e₂⟩ := e
              have hg := generateMock_frame ext f n st
              rw [heq₂] at hg
              simp only [resState] at hg ⊢
              exact genFrameEq_policy hg
            next mockObj st₂ heq₂ =>
              have hg := generateMock_frame ext f n st
              rw [heq₂] at hg
              simp only [resState] at hg ⊢
              exact policyEq_trans (setMockRegistryLive_policy _ _) (genFrameEq_policy hg)

end Jest

namespace Jest

theorem loadModule_ok_mockSide {ext : Ext} {lm lm₁ : ModuleRecord} {st st₁ : RT}
    (h : loadModule ext lm st = .ok (lm₁, st₁)) : MockSideEq st₁ st := by
  have hf := loadModule_mockSide ext lm st
  rw [h] at hf
  simpa only [resState] using hf

theorem requireModule_ok_iso {ext : Ext} {f : String} {mn : Option String} {ia : Bool}
    {st : RT} {v : JSValue} {st₁ : RT}
    (hIso : st.isolatedModuleRegistry.isSome = true)
    (h : requireModule ext f mn false ia st = .ok (v, st₁)) :
    st₁.moduleRegistry = st.moduleRegistry ∧ st₁.isolatedModuleRegistry.isSome = true := by
  have hf := requireModule_iso ext f mn ia st hIso
  rw [h] at hf
  simpa only [resState] using hf

/-- The manual-mock branch of `requireMock`, inside an isolation scope,
leaves the main registries untouched when it returns. -/
theorem requireMockManual_iso {ext : Ext} {moduleID modulePath : String} {st : RT}
    {v : JSValue} {st₁ : RT}
    (hIsoM : st.isolatedModuleRegistry.isSome = true)
    (hIsoK : st.isolatedMockRegistry.isSome = true)
    (h : requireMockManual ext moduleID modulePath st = .ok (v, st₁)) :
    st₁.moduleRegistry = st.moduleRegistry ∧ st₁.mockRegistry = st.mockRegistry ∧
    st₁.isolatedModuleRegistry.isSome = true ∧ st₁.isolatedMockRegistry.isSome = true := by
  unfold requireMockManual at h
  dsimp only at h
  split at h
  · simp at h
  next lm₁ st₂ heq =>
    simp only [Except.ok.injEq, Prod.mk.injEq] at h
    obtain ⟨-, h2⟩ := h
    subst h2
    have hms := loadModule_ok_mockSide heq
    have hregs := loadModule_ok_regs heq
    have hmods := setMockRegistryLive_modules
      (setKey moduleID lm₁.exports (mockRegistryLive st₂)) st₂
    have hisoK₂ : st₂.isolatedMockRegistry.isSome = true := by
      rw [hms.2.1]
      exact hIsoK
    have hlive := setMockRegistryLive_iso
      (setKey moduleID lm₁.exports (mockRegistryLive st₂)) st₂ hisoK₂
    refine ⟨?_, ?_, ?_, ?_⟩
    · rw [hmods.1, hregs.1]
      rfl
    · rw [hlive.1, hms.1]
      rfl
    · rw [hmods.2, hregs.2]
      exact hIsoM
    · exact hlive.2

/-- The automock branch of `requireMock`, inside an isolation scope, leaves
the main registries untouched when it returns. -/
theorem requireMockGenerate_iso {ext : Ext} {f n moduleID : String} {st : RT}
    {v : JSValue} {st₁ : RT}
    (hIsoM : st.isolatedModuleRegistry.isSome = true)
    (hIsoK : st.isolatedMockRegistry.isSome = true)
    (h : requireMockGenerate ext f n moduleID st = .ok (v, st₁)) :
    st₁.moduleRegistry = st.moduleRegistry ∧ st₁.mockRegistry = st.mockRegistry ∧
    st₁.isolatedModuleRegistry.isSome = true ∧ st₁.isolatedMockRegistry.isSome = true := by
  unfold requireMockGenerate at h
  split at h
  · simp at h
  next mockObj st₂ heq =>
    simp only [Except.ok.injEq, Prod.mk.injEq] at h
    obtain ⟨-, h2⟩ := h
    subst h2
    have hregs := generateMock_ok_registries heq
    have hisoM₂ := generateMock_ok_isoModule hIsoM heq
    have hgf := generateMock_frame ext f n st
    rw [heq] at hgf
    simp only [resState] at hgf
    have hisoK₂ : st₂.isolatedMockRegistry.isSome = true := by
      rw [hgf.2.2.2.2.2.2.2.2]
      exact hIsoK
    have hmods := setMockRegistryLive_modules
      (setKey moduleID mockObj (mockRegistryLive st₂)) st₂
    have hlive := setMockRegistryLive_iso
      (setKey moduleID mockObj (mockRegistryLive st₂)) st₂ hisoK₂
    refine ⟨?_, ?_, ?_, ?_⟩
    · rw [hmods.1, hregs.2]
    · rw [hlive.1, hregs.1]
    · rw [hmods.2]
      exact hisoM₂
    · exact hlive.2

/-- Inside an isolation scope, a `requireMock` call that returns leaves the
main mock and module registries untouched and keeps both isolated
registries present. -/
theorem requireMock_iso {ext : Ext} {f n : String} {st : RT} {v : JSValue} {st₁ : RT}
    (hIsoM : st.isolatedModuleRegistry.isSome = true)
    (hIsoK : st.isolatedMockRegistry.isSome = true)
    (h : requireMock ext f n st = .ok (v, st₁)) :
    st₁.moduleRegistry = st.moduleRegistry ∧ st₁.mockRegistry = st.mockRegistry ∧
    st₁.isolatedModuleRegistry.isSome = true ∧ st₁.isolatedMockRegistry.isSome = true := by
  unfold requireMock at h
  dsimp only at h
  split at h
  · simp only [Except.ok.injEq, Prod.mk.injEq] at h
    obtain ⟨-, h2⟩ := h
    subst h2
    exact ⟨rfl, rfl, hIsoM, hIsoK⟩
  · split at h
    · simp only [Except.ok.injEq, Prod.mk.injEq] at h
      obtain ⟨-, h2⟩ := h
      subst h2
      exact ⟨rfl, rfl, hIsoM, hIsoK⟩
    · split at h
      next factory hfac =>
        simp only [Except.ok.injEq, Prod.mk.injEq] at h
        obtain ⟨-, h2⟩ := h
        subst h2
        unfold setMockRegistryLive mockRegistryLive
        dsimp only
        cases hiso2 : st.isolatedMockRegistry with
        | none => rw [hiso2] at hIsoK; simp at hIsoK
        | some iso => simp [hIsoM]
      · split at h
        · simp at h
        next modulePath₀ heq =>
          split at h
          · exact requireMockManual_iso hIsoM hIsoK h
          · exact requireMockGenerate_iso hIsoM hIsoK h

/-- The policy `_shouldMock` never touches any registry. -/
theorem shouldMock_ok_registries {ext : Ext} {f n : String} {st : RT} {d : Bool} {stA : RT}
    (h : shouldMock ext f n st = .ok (d, stA)) :
    stA.moduleRegistry = st.moduleRegistry ∧ stA.mockRegistry = st.mockRegistry ∧
    stA.isolatedModuleRegistry = st.isolatedModuleRegistry ∧
    stA.isolatedMockRegistry = st.isolatedMockRegistry := by
  unfold shouldMock at h
  dsimp only at h
  repeat' split at h
  all_goals first
    | (simp only [Except.ok.injEq, Prod.mk.injEq] at h
       obtain ⟨-, h2⟩ := h
       subst h2
       exact ⟨rfl, rfl, rfl, rfl⟩)
    | simp at h

/-- A require through the full surface, inside an isolation scope, leaves
the main mock and module registries untouched and keeps both isolated
registries present. -/
theorem requireModuleOrMock_iso {ext : Ext} {f n : String} {st : RT} {v : JSValue} {st₁ : RT}
    (hIsoM : st.isolatedModuleRegistry.isSome = true)
    (hIsoK : st.isolatedMockRegistry.isSome = true)
    (h : requireModuleOrMock ext f n st = .ok (v, st₁)) :
    st₁.moduleRegistry = st.moduleRegistry ∧ st₁.mockRegistry = st.mockRegistry ∧
    st₁.isolatedModuleRegistry.isSome = true ∧ st₁.isolatedMockRegistry.isSome = true := by
  unfold requireModuleOrMock at h
  rw [hintNotFound_ok_iff] at h
  cases hsm : shouldMock ext f n st with
  | error e => rw [hsm] at h; simp at h
  | ok p =>
    obtain ⟨d, stA⟩ := p
    have hreg := shouldMock_ok_registries hsm
    have hIsoMA : stA.isolatedModuleRegistry.isSome = true := by
      rw [hreg.2.2.1]; exact hIsoM
    have hIsoKA : stA.isolatedMockRegistry.isSome = true := by
      rw [hreg.2.2.2]; exact hIsoK
    rw [hsm] at h
    cases d with
    | true =>
      have := requireMock_iso hIsoMA hIsoKA h
      exact ⟨by rw [this.1, hreg.1], by rw [this.2.1, hreg.2.1], this.2.2.1, this.2.2.2⟩
    | false =>
      have hi := requireModule_ok_iso hIsoMA h
      have hms := requireModule_ok_mockSide h
      refine ⟨by rw [hi.1, hreg.1], by rw [hms.1, hreg.2.1], hi.2, ?_⟩
      rw [hms.2.1]
      exact hIsoKA

/-- One require-surface operation inside an isolation scope preserves the
main registries and the presence of the isolated ones. -/
theorem runOp_iso {ext : Ext} {op : ReqOp} {st st₁ : RT}
    (hIsoM : st.isolatedModuleRegistry.isSome = true)
    (hIsoK : st.isolatedMockRegistry.isSome = true)
    (h : runOp ext op st = .ok st₁) :
    st₁.moduleRegistry = st.moduleRegistry ∧ st₁.mockRegistry = st.mockRegistry ∧
    st₁.isolatedModuleRegistry.isSome = true ∧ st₁.isolatedMockRegistry.isSome = true := by
  unfold runOp at h
  cases op with
  | require f n =>
    dsimp only at h
    cases hr : requireModuleOrMock ext f n st with
    | error e => rw [hr] at h; simp at h
    | ok p =>
      obtain ⟨v, st₂⟩ := p
      rw [hr] at h
      simp only [Except.ok.injEq] at h
      subst h
      exact requireModuleOrMock_iso hIsoM hIsoK hr
  | requireMockOp f n =>
    dsimp only at h
    cases hr : requireMock ext f n st with
    | error e => rw [hr] at h; simp at h
    | ok p =>
      obtain ⟨v, st₂⟩ := p
      rw [hr] at h
      simp only [Except.ok.injEq] at h
      subst h
      exact requireMock_iso hIsoM hIsoK hr

/-- Any sequence of require-surface operations inside an isolation scope
preserves the main registries and the presence of the isolated ones. -/
theorem runOps_iso {ext : Ext} {ops : List ReqOp} {st st₁ : RT}
    (hIsoM : st.isolatedModuleRegistry.isSome = true)
    (hIsoK : st.isolatedMockRegistry.isSome = true)
    (h : runOps ext ops st = .ok st₁) :
    st₁.moduleRegistry = st.moduleRegistry ∧ st₁.mockRegistry = st.mockRegistry := by
  induction ops generalizing st with
  | nil =>
    unfold runOps at h
    simp only [Except.ok.injEq] at h
    subst h
    exact ⟨rfl, rfl⟩
  | cons op rest ih =>
    unfold runOps at h
    cases hr : runOp ext op st with
    | error e => rw [hr] at h; simp at h
    | ok st₂ =>
      rw [hr] at h
      have hstep := runOp_iso hIsoM hIsoK hr
      have hrest := ih hstep.2.2.1 hstep.2.2.2 h
      exact ⟨hrest.1.trans hstep.1, hrest.2.trans hstep.2.1⟩

end Jest

namespace Jest

/-- A baseline collaborator assignment for concrete executions: every
requested name resolves to a source file, evaluation completes normally
keeping the pre-registered exports, the environment is live and there are
no mocks, patterns or extra globals. -/
def baseExt : Ext where
  getModuleID := fun _ f n => f ++ "::" ++ n.getD ""
  resolveModule := fun _ n => some (n ++ ".js")
  isCoreModule := fun _ => false
  getModule := fun _ => none
  getMockModule := fun _ _ => none
  resolveStubModuleName := fun _ _ => none
  getModulePath := fun f n => f ++ "/" ++ n
  extname := fun _ => ".js"
  mocksAdjacent := fun _ => none
  jsonExports := fun _ => ⟨0, true⟩
  nodeExports := fun _ => ⟨0, true⟩
  evalModule := fun _ => some none
  getMetadata := fun _ => some 1
  emptyMetadata := 0
  hostRequire := fun _ => ⟨1, true⟩
  processValue := ⟨2, true⟩
  globalObj := some []
  runScriptOk := true
  extraGlobals := []
  siblingHint := fun _ _ => none
  hasUnmockList := false
  unmockTest := fun _ => false
  inNodeModules := fun _ => false

/-- The idle state of a freshly constructed runtime. -/
def baseSt : RT where
  currentlyExecutingModulePath := ""
  isCurrentlyExecutingManualMock := none
  explicitShouldMock := []
  mockFactories := []
  mockFactoryCalls := []
  mockMetaDataCache := []
  mockRegistry := []
  isolatedMockRegistry := none
  moduleRegistry := []
  isolatedModuleRegistry := none
  internalModuleRegistry := []
  shouldAutoMock := false
  shouldMockModuleCache := []
  shouldUnmockTransitiveDependenciesCache := []
  transitiveShouldMock := []
  virtualMocks := []
  nextToken := 10
  exitCode := none
  loggedErrors := []

/-- Collaborators identical to the baseline except that evaluated module
code throws. -/
def throwExt : Ext := { baseExt with evalModule := fun _ => none }

/-- Collaborators identical to the baseline except that the environment
global has been torn down (null). -/
def tornExt : Ext := { baseExt with globalObj := none }

/-- A pre-registered record for a concrete executor invocation. -/
def execRecord : ModuleRecord :=
  { id := "a.js", filename := "a.js", exports := ⟨0, true⟩, loaded := false }

/-- The reentrancy pair carried by an executor outcome. -/
def execResultReentrancy (r : Except (JSError × RT) (ModuleRecord × RT)) :
    String × Option String :=
  ((resState r).currentlyExecutingModulePath, (resState r).isCurrentlyExecutingManualMock)

/-- A callback that throws immediately. -/
def throwingCallback : RT → Except (JSError × RT) RT :=
  fun st => .error (.generic "boom", st)

/-- A callback that does nothing. -/
def identityCallback : RT → Except (JSError × RT) RT :=
  fun st => .ok st

/-- State carried by an `isolateModules` outcome. -/
def isoResultState (r : Except (JSError × RT) RT) : RT :=
  match r with
  | .ok st => st
  | .error (_, st) => st

theorem lookupStr_isSome_of_mem {k : String} {l : List (String × α)}
    (h : k ∈ l.map Prod.fst) : (lookupStr k l).isSome = true := by
  induction l with
  | nil => simp at h
  | cons p t ih =>
    rw [List.map_cons, List.mem_cons] at h
    by_cases hp : p.1 = k
    · simp [lookupStr, hp]
    · simp only [lookupStr, hp, if_false]
      rcases h with h | h
      · exact absurd h.symm hp
      · exact ih h

/-- Two string-keyed maps have the same key set. -/
def sameKeySet (a b : List (String × α)) : Bool :=
  (a.map Prod.fst).all (fun k => containsKey k b)
    && (b.map Prod.fst).all (fun k => containsKey k a)

theorem sameKeySet_refl (l : List (String × α)) : sameKeySet l l = true := by
  unfold sameKeySet
  have : (l.map Prod.fst).all (fun k => containsKey k l) = true := by
    rw [List.all_eq_true]
    intro k hk
    exact lookupStr_isSome_of_mem hk
  rw [this]
  rfl

/-- Claim C1 as stated is false: when the evaluated module code throws, and
likewise when the script runner returns null, `_execModule` exits with the
reentrancy pair still set to the executing filename instead of the saved
pre-call values (source lines 702-706 are not undone on these paths; the
restoration at lines 771-772 is only reached after a normal return of the
wrapper call). -/
theorem claim1_counterexample :
    execResultReentrancy (execModule throwExt execRecord baseSt) = ("a.js", some "a.js") ∧
    execResultReentrancy
      (execModule { baseExt with runScriptOk := false } execRecord baseSt)
      = ("a.js", some "a.js") ∧
    baseSt.currentlyExecutingModulePath = "" ∧
    baseSt.isCurrentlyExecutingManualMock = none :=
  ⟨rfl, rfl, rfl, rfl⟩

/-- Claim C1 amended: the reentrancy pair (currently executing module path,
currently executing manual mock) is restored to its pre-call values on every
invocation of the executor that completes normally while the script runner
is live; on the exit paths where evaluated code throws, where an extra
global is missing, or where the script runner returns null, the pair is
left set to the executing filename. -/
theorem claim1_amended (ext : Ext) (lm lm₁ : ModuleRecord) (st st₁ : RT)
    (hrs : ext.runScriptOk = true)
    (h : execModule ext lm st = .ok (lm₁, st₁)) :
    st₁.currentlyExecutingModulePath = st.currentlyExecutingModulePath ∧
    st₁.isCurrentlyExecutingManualMock = st.isCurrentlyExecutingManualMock :=
  execModule_ok_reentrancy ext lm lm₁ st st₁ hrs h

theorem claim1_witness :
    baseSt.currentlyExecutingModulePath = baseSt.currentlyExecutingModulePath ∧
    baseSt.isCurrentlyExecutingManualMock = baseSt.isCurrentlyExecutingManualMock :=
  claim1_amended baseExt execRecord execRecord baseSt baseSt rfl rfl

/-- Claim C2 as stated is false: when the callback passed to
`isolateModules` throws, both isolated registries are left in place (the
nulling at source lines 536-537 is skipped), as this concrete execution
shows. -/
theorem claim2_counterexample :
    (match isolateModules throwingCallback baseSt with
     | .error (_, st₁) => (st₁.isolatedModuleRegistry.isSome, st₁.isolatedMockRegistry.isSome)
     | .ok st₁ => (st₁.isolatedModuleRegistry.isSome, st₁.isolatedMockRegistry.isSome))
      = (true, true) ∧
    baseSt.isolatedModuleRegistry.isSome = false ∧
    baseSt.isolatedMockRegistry.isSome = false :=
  ⟨rfl, rfl, rfl⟩

/-- Claim C2 amended: both isolated registries are discarded when
`isolateModules(fn)` returns normally; when `fn` throws, the exception
propagates and both isolated registries remain installed. -/
theorem claim2_amended (fn : RT → Except (JSError × RT) RT) (st st₁ : RT)
    (h : isolateModules fn st = .ok st₁) :
    st₁.isolatedModuleRegistry = none ∧ st₁.isolatedMockRegistry = none := by
  unfold isolateModules at h
  split at h
  · simp at h
  · cases hf : fn (enterIsolation st) with
    | ok st₂ =>
      rw [hf] at h
      simp only [Except.ok.injEq] at h
      subst h
      exact ⟨rfl, rfl⟩
    | error e =>
      rw [hf] at h
      simp at h

theorem claim2_witness :
    (isoResultState (isolateModules identityCallback baseSt)).isolatedModuleRegistry = none ∧
    (isoResultState (isolateModules identityCallback baseSt)).isolatedMockRegistry = none :=
  claim2_amended identityCallback baseSt
    (isoResultState (isolateModules identityCallback baseSt)) rfl

/-- Claim C3 as stated is false: when the environment global is null at
execute time, `_execModule` returns immediately (source lines 697-700)
without recording any diagnostic and without touching the process exit
code, as this concrete execution shows. -/
theorem claim3_counterexample :
    execModule tornExt execRecord baseSt = .ok (execRecord, baseSt) ∧
    baseSt.loggedErrors = [] ∧ baseSt.exitCode = none :=
  ⟨rfl, rfl, rfl⟩

/-- Claim C3 amended: when the environment global is null at execute time
the executor returns without throwing, recording nothing and leaving the
exit code unchanged; the formatted reference-error diagnostic together with
exit code 1 is produced on the path where the environment script runner
returns null (source lines 739-745), also without throwing. -/
theorem claim3_amended (ext : Ext) (lm : ModuleRecord) (st : RT) :
    (ext.globalObj = none → execModule ext lm st = .ok (lm, st)) ∧
    (∀ gl, ext.globalObj = some gl → ext.runScriptOk = false →
      execModule ext lm st = .ok (lm,
        { st with currentlyExecutingModulePath := lm.filename,
                  isCurrentlyExecutingManualMock := some lm.filename,
                  loggedErrors := tornDownMessage :: st.loggedErrors,
                  exitCode := some 1 })) := by
  constructor
  · intro hg
    unfold execModule
    rw [hg]
  · intro gl hg hrs
    unfold execModule
    rw [hg]
    dsimp only
    rw [hrs]
    simp

theorem claim3_witness :
    execModule tornExt execRecord baseSt = .ok (execRecord, baseSt) ∧
    execModule { baseExt with runScriptOk := false } execRecord baseSt
      = .ok (execRecord,
        { baseSt with currentlyExecutingModulePath := "a.js",
                      isCurrentlyExecutingManualMock := some "a.js",
                      loggedErrors := [tornDownMessage], exitCode := some 1 }) :=
  ⟨(claim3_amended tornExt execRecord baseSt).1 rfl,
   (claim3_amended { baseExt with runScriptOk := false } execRecord baseSt).2 [] rfl rfl⟩

/-- A state holding one cached mock and one cached module, to observe
registry loss. -/
def claim5St : RT :=
  { baseSt with
    mockRegistry := [("m", ⟨5, true⟩)],
    moduleRegistry :=
      [("keep.js", { id := "keep.js", filename := "keep.js", exports := ⟨6, true⟩,
                     loaded := true })] }

/-- Claim C5 as stated is false: when the throwaway load of the real module
throws, `_generateMock` propagates the exception with the fresh empty
registries still installed (the restore at source lines 806-807 is
skipped), so the registries in effect afterwards are not the saved ones, as
this concrete execution shows. -/
theorem claim5_counterexample :
    (match generateMock throwExt "F" "x" claim5St with
     | .error (_, st₁) => (st₁.mockRegistry, st₁.moduleRegistry.map Prod.fst)
     | .ok (_, st₁) => (st₁.mockRegistry, st₁.moduleRegistry.map Prod.fst))
      = ([], ["x.js"]) ∧
    claim5St.mockRegistry = [("m", ⟨5, true⟩)] ∧
    claim5St.moduleRegistry.map Prod.fst = ["keep.js"] :=
  ⟨rfl, rfl, rfl⟩

/-- Claim C5 amended: when `_generateMock` performs generation and the
throwaway load of the real module returns normally, the saved mock and
module registries are restored, and they are the live registries afterwards
on both remaining outcomes (metadata obtained, or the metadata-null error);
when the load throws, the throwaway registries remain live. -/
theorem claim5_amended (ext : Ext) (f n modulePath : String) (st : RT) (v : JSValue)
    (st₃ : RT)
    (hres : resolveGenerateTarget ext f n = some modulePath)
    (hmiss : (lookupStr modulePath st.mockMetaDataCache).isSome = false)
    (hreq : requireModule ext f (some n) false false
      { st with mockMetaDataCache := setKey modulePath ext.emptyMetadata st.mockMetaDataCache,
                mockRegistry := [], moduleRegistry := [] } = .ok (v, st₃)) :
    (resState (generateMock ext f n st)).mockRegistry = st.mockRegistry ∧
    (resState (generateMock ext f n st)).moduleRegistry = st.moduleRegistry := by
  unfold generateMock
  rw [hres]
  simp only [hmiss, Bool.false_eq_true, if_false]
  rw [hreq]
  dsimp only
  cases hmd : ext.getMetadata v with
  | none => exact ⟨rfl, rfl⟩
  | some md => exact ⟨rfl, rfl⟩

/-- The throwaway frame of the concrete C5 generation. -/
def claim5InnerState : RT :=
  { claim5St with
    mockMetaDataCache := setKey "x.js" baseExt.emptyMetadata claim5St.mockMetaDataCache,
    mockRegistry := [], moduleRegistry := [] }

/-- Value returned by a require-surface outcome. -/
def okValue (r : Except (JSError × RT) (JSValue × RT)) : JSValue :=
  match r with
  | .ok (v, _) => v
  | .error _ => ⟨0, false⟩

theorem claim5_witness :
    (resState (generateMock baseExt "F" "x" claim5St)).mockRegistry = claim5St.mockRegistry ∧
    (resState (generateMock baseExt "F" "x" claim5St)).moduleRegistry
      = claim5St.moduleRegistry :=
  claim5_amended baseExt "F" "x" "x.js" claim5St
    (okValue (requireModule baseExt "F" (some "x") false false claim5InnerState))
    (resState (requireModule baseExt "F" (some "x") false false claim5InnerState))
    rfl rfl rfl

/-- Claim C6: for any sequence of require and requireMock operations run by
an `isolateModules` callback that returns normally, the main module and
mock registries afterwards are the very maps from before the call, hence in
particular their key sets are unchanged. -/
theorem claim6_isolation_preserves_registries (ext : Ext) (ops : List ReqOp) (st st₁ : RT)
    (h : isolateModules (runOps ext ops) st = .ok st₁) :
    st₁.moduleRegistry = st.moduleRegistry ∧ st₁.mockRegistry = st.mockRegistry ∧
    sameKeySet st₁.moduleRegistry st.moduleRegistry = true ∧
    sameKeySet st₁.mockRegistry st.mockRegistry = true := by
  unfold isolateModules at h
  split at h
  · simp at h
  · cases hf : runOps ext ops (enterIsolation st) with
    | error e =>
      rw [hf] at h
      simp at h
    | ok st₂ =>
      rw [hf] at h
      simp only [Except.ok.injEq] at h
      subst h
      have hiso := runOps_iso
        (rfl : (enterIsolation st).isolatedModuleRegistry.isSome = true) rfl hf
      refine ⟨hiso.1, hiso.2, ?_, ?_⟩
      · have h1 : st₂.moduleRegistry = st.moduleRegistry := hiso.1
        show sameKeySet st₂.moduleRegistry st.moduleRegistry = true
        rw [h1]
        exact sameKeySet_refl st.moduleRegistry
      · have h2 : st₂.mockRegistry = st.mockRegistry := hiso.2
        show sameKeySet st₂.mockRegistry st.mockRegistry = true
        rw [h2]
        exact sameKeySet_refl st.mockRegistry

theorem claim6_witness :
    (isoResultState (isolateModules (runOps baseExt [.require "F" "x"]) baseSt)).moduleRegistry
      = baseSt.moduleRegistry ∧
    (isoResultState (isolateModules (runOps baseExt [.require "F" "x"]) baseSt)).mockRegistry
      = baseSt.mockRegistry ∧
    sameKeySet
      (isoResultState (isolateModules (runOps baseExt [.require "F" "x"]) baseSt)).moduleRegistry
      baseSt.moduleRegistry = true ∧
    sameKeySet
      (isoResultState (isolateModules (runOps baseExt [.require "F" "x"]) baseSt)).mockRegistry
      baseSt.mockRegistry = true :=
  claim6_isolation_preserves_registries baseExt [.require "F" "x"] baseSt
    (isoResultState (isolateModules (runOps baseExt [.require "F" "x"]) baseSt)) rfl

theorem checkExtraGlobals_finds (gs₁ gs₂ : List String) (g : String)
    (gl : List (String × JSValue))
    (h₁ : ∀ x ∈ gs₁, truthyLookup x gl = true)
    (h₂ : truthyLookup g gl = false) :
    checkExtraGlobals (gs₁ ++ g :: gs₂) gl = some g := by
  induction gs₁ with
  | nil => simp [checkExtraGlobals, h₂]
  | cons x t ih =>
    have hx₁ := h₁ x (by simp)
    rw [List.cons_append]
    unfold checkExtraGlobals
    rw [hx₁]
    simp only [if_true]
    exact ih (fun y hy => h₁ y (by simp [hy]))

/-- Claim C10: for a configured extra global whose value on the environment
global is present but falsy, the executor raises the missing-extra-global
error naming that global, because the argument evaluation at source lines
760-768 tests `this._environment.global[globalVariable]` for truthiness
rather than for presence. -/
theorem claim10_extra_global_falsy (ext : Ext) (lm : ModuleRecord) (st : RT)
    (gl : List (String × JSValue)) (gs₁ gs₂ : List String) (g : String) (v : JSValue)
    (hg : ext.globalObj = some gl)
    (hrs : ext.runScriptOk = true)
    (hx : ext.extraGlobals = gs₁ ++ g :: gs₂)
    (h₁ : ∀ x ∈ gs₁, truthyLookup x gl = true)
    (h₂ : lookupStr g gl = some v)
    (h₃ : v.truthy = false) :
    execModule ext lm st = .error (.generic (missingGlobalMessage g),
      { st with currentlyExecutingModulePath := lm.filename,
                isCurrentlyExecutingManualMock := some lm.filename }) := by
  have h₂f : truthyLookup g gl = false := by
    unfold truthyLookup
    rw [h₂]
    simpa [truthyOpt] using h₃
  have hchk := checkExtraGlobals_finds gs₁ gs₂ g gl h₁ h₂f
  unfold execModule
  rw [hg]
  dsimp only
  rw [hrs]
  simp only [Bool.true_eq_false, if_false]
  rw [hx, hchk]

theorem claim10_witness :
    execModule { baseExt with globalObj := some [("g0", ⟨3, false⟩)], extraGlobals := ["g0"] }
      execRecord baseSt
      = .error (.generic (missingGlobalMessage "g0"),
        { baseSt with currentlyExecutingModulePath := "a.js",
                      isCurrentlyExecutingManualMock := some "a.js" }) :=
  claim10_extra_global_falsy
    { baseExt with globalObj := some [("g0", ⟨3, false⟩)], extraGlobals := ["g0"] }
    execRecord baseSt [("g0", ⟨3, false⟩)] [] [] "g0" ⟨3, false⟩
    rfl rfl rfl (by intro x hx; simp at hx) rfl rfl

end Jest

namespace Jest

/-- With an explicit should-mock entry of false for the module ID, the
manual-mock redirect of `requireModule` never fires, for any intent. -/
theorem manualRedirect_none_of_explicit_false (ext : Ext) (f : String) (mn : Option String)
    (ii ia : Bool) (st : RT)
    (hx : lookupStr (ext.getModuleID st.virtualMocks f mn) st.explicitShouldMock
      = some false) :
    manualRedirect ext f mn ii ia st = none := by
  unfold manualRedirect
  dsimp only
  split
  · rw [hx]
    simp
  · rfl

/-- Claim C4: when `explicit_should_mock[id] = false`, the require surface
behaves exactly as `requireActual` (the forced-real call that bypasses every
mock decision) with the not-found hint applied: the real module is
delivered regardless of the automock flag, the unmock patterns, the
transitive-mock state, or a present manual mock. -/
theorem claim4_explicit_false_dominates (ext : Ext) (f n : String) (st : RT)
    (hx : lookupStr (ext.getModuleID st.virtualMocks f (some n)) st.explicitShouldMock
      = some false) :
    requireModuleOrMock ext f n st = hintNotFound ext f n (requireActual ext f n st) := by
  have hsm : shouldMock ext f n st = .ok (false, st) := by
    unfold shouldMock
    dsimp only
    rw [hx]
  unfold requireModuleOrMock
  rw [hsm]
  dsimp only
  have hrm : requireModule ext f (some n) false false st
      = requireModule ext f (some n) false true st := by
    unfold requireModule
    rw [manualRedirect_none_of_explicit_false ext f (some n) false false st hx,
        manualRedirect_none_of_explicit_false ext f (some n) false true st hx]
  rw [hrm]
  rfl

/-- A state in which the module whose ID is F::x is explicitly unmocked. -/
def claim4St : RT :=
  { baseSt with explicitShouldMock := [("F::x", false)] }

theorem claim4_witness :
    requireModuleOrMock baseExt "F" "x" claim4St
      = hintNotFound baseExt "F" "x" (requireActual baseExt "F" "x" claim4St) :=
  claim4_explicit_false_dominates baseExt "F" "x" claim4St rfl

/-- Collaborators in which the requested name fs is a core module and
module IDs are the bare names. -/
def coreExt : Ext :=
  { baseExt with
    isCoreModule := fun n => n = "fs",
    getModuleID := fun _ _ n => n.getD "" }

/-- A state in which the core module fs has been explicitly mocked, as
`jest.mock` on a core name produces. -/
def claim9St : RT :=
  { baseSt with explicitShouldMock := [("fs", true)] }

/-- Claim C9 as stated is false: an explicit should-mock entry is consulted
before the core-module test (source lines 832-841), so with
`explicit_should_mock[fs] = true` the policy returns true for the core name
fs and the require surface routes the request through the mock path. -/
theorem claim9_counterexample :
    coreExt.isCoreModule "fs" = true ∧
    shouldMock coreExt "F" "fs" claim9St = .ok (true, claim9St) ∧
    requireModuleOrMock coreExt "F" "fs" claim9St
      = hintNotFound coreExt "F" "fs" (requireMock coreExt "F" "fs" claim9St) :=
  ⟨rfl, rfl, rfl⟩

/-- Claim C9 amended: whenever no explicit should-mock entry exists for the
module ID, the policy returns false for a core-module name and the require
surface delivers the core module itself. -/
theorem claim9_amended (ext : Ext) (f n : String) (st : RT)
    (hcore : ext.isCoreModule n = true)
    (hexp : lookupStr (ext.getModuleID st.virtualMocks f (some n)) st.explicitShouldMock
      = none) :
    shouldMock ext f n st = .ok (false, st) ∧
    requireModuleOrMock ext f n st = .ok (requireCoreModule ext n, st) := by
  have hsm : shouldMock ext f n st = .ok (false, st) := by
    unfold shouldMock
    dsimp only
    rw [hexp, hcore]
    simp
  refine ⟨hsm, ?_⟩
  unfold requireModuleOrMock
  rw [hsm]
  have hcn : isCoreName ext (some n) = true := by
    simp [isCoreName, hcore]
  unfold requireModule
  rw [hcn]
  simp [hintNotFound]

theorem claim9_witness :
    shouldMock coreExt "F" "fs" baseSt = .ok (false, baseSt) ∧
    requireModuleOrMock coreExt "F" "fs" baseSt
      = .ok (requireCoreModule coreExt "fs", baseSt) :=
  claim9_amended coreExt "F" "fs" baseSt rfl rfl

end Jest

namespace Jest

theorem shouldMock_explicit_hit (ext : Ext) (f n : String) (stB : RT) (d : Bool)
    (h : lookupStr (ext.getModuleID stB.virtualMocks f (some n)) stB.explicitShouldMock
      = some d) :
    shouldMock ext f n stB = .ok (d, stB) := by
  unfold shouldMock
  dsimp only
  rw [h]

theorem shouldMock_shortCircuit (ext : Ext) (f n : String) (stB : RT)
    (h1 : lookupStr (ext.getModuleID stB.virtualMocks f (some n)) stB.explicitShouldMock
      = none)
    (h2 : (!stB.shouldAutoMock || ext.isCoreModule n
        || decide (lookupStr (f ++ pathDelimiter ++ ext.getModuleID stB.virtualMocks f (some n))
             stB.shouldUnmockTransitiveDependenciesCache = some true)) = true) :
    shouldMock ext f n stB = .ok (false, stB) := by
  unfold shouldMock
  dsimp only
  rw [h1]
  simp only [h2, if_true]

theorem shouldMock_cache_hit (ext : Ext) (f n : String) (stB : RT) (d : Bool)
    (h1 : lookupStr (ext.getModuleID stB.virtualMocks f (some n)) stB.explicitShouldMock
      = none)
    (h2 : (!stB.shouldAutoMock || ext.isCoreModule n
        || decide (lookupStr (f ++ pathDelimiter ++ ext.getModuleID stB.virtualMocks f (some n))
             stB.shouldUnmockTransitiveDependenciesCache = some true)) = false)
    (h3 : lookupStr (ext.getModuleID stB.virtualMocks f (some n)) stB.shouldMockModuleCache
      = some d) :
    shouldMock ext f n stB = .ok (d, stB) := by
  unfold shouldMock
  dsimp only
  rw [h1]
  simp only [h2, Bool.false_eq_true, if_false]
  rw [h3]

/-- After one policy evaluation, any state that agrees with its result on
the policy inputs yields the same decision without further writes: the
computed decision is memoized in the caches the first run filled. -/
theorem shouldMock_stable {ext : Ext} {f n : String} {st : RT} {d : Bool} {stA : RT}
    (h : shouldMock ext f n st = .ok (d, stA))
    {stB : RT} (hp : PolicyEq stB stA) :
    shouldMock ext f n stB = .ok (d, stB) := by
  obtain ⟨hpEX, hpAM, hpSMC, hpSUC, hpTSM, hpVM⟩ := hp
  unfold shouldMock at h
  dsimp only at h
  split at h
  next b heq1 =>
    simp only [Except.ok.injEq, Prod.mk.injEq] at h
    obtain ⟨hb, hst⟩ := h
    subst hst
    exact shouldMock_explicit_hit ext f n stB d (by rw [hpVM, hpEX, heq1, hb])
  next heq1 =>
    split at h
    next hc1 =>
      simp only [Except.ok.injEq, Prod.mk.injEq] at h
      obtain ⟨hb, hst⟩ := h
      subst hst
      rw [← hb]
      exact shouldMock_shortCircuit ext f n stB
        (by rw [hpVM, hpEX, heq1])
        (by rw [hpVM, hpAM, hpSUC]; exact hc1)
    next hc1 =>
      rw [Bool.not_eq_true] at hc1
      split at h
      next b heq2 =>
        simp only [Except.ok.injEq, Prod.mk.injEq] at h
        obtain ⟨hb, hst⟩ := h
        subst hst
        exact shouldMock_cache_hit ext f n stB d
          (by rw [hpVM, hpEX, heq1])
          (by rw [hpVM, hpAM, hpSUC]; exact hc1)
          (by rw [hpVM, hpSMC, heq2, hb])
      next heq2 =>
        split at h
        next heq3 =>
          split at h
          next heq4 =>
            simp only [Except.ok.injEq, Prod.mk.injEq] at h
            obtain ⟨hb, hst⟩ := h
            subst hst
            dsimp only at hpEX hpAM hpSMC hpSUC hpTSM hpVM
            exact shouldMock_cache_hit ext f n stB d
              (by rw [hpVM, hpEX, heq1])
              (by rw [hpVM, hpAM, hpSUC]; exact hc1)
              (by rw [hpVM, hpSMC, lookupStr_setKey_self, hb])
          next heq4 => simp at h
        next modulePath heq3 =>
          split at h
          next hc2 =>
            simp only [Except.ok.injEq, Prod.mk.injEq] at h
            obtain ⟨hb, hst⟩ := h
            subst hst
            dsimp only at hpEX hpAM hpSMC hpSUC hpTSM hpVM
            exact shouldMock_cache_hit ext f n stB d
              (by rw [hpVM, hpEX, heq1])
              (by rw [hpVM, hpAM, hpSUC]; exact hc1)
              (by rw [hpVM, hpSMC, lookupStr_setKey_self, hb])
          next hc2 =>
            split at h
            next hc3 =>
              simp only [Except.ok.injEq, Prod.mk.injEq] at h
              obtain ⟨hb, hst⟩ := h
              subst hst
              dsimp only at hpEX hpAM hpSMC hpSUC hpTSM hpVM
              rw [← hb]
              exact shouldMock_shortCircuit ext f n stB
                (by rw [hpVM, hpEX, heq1])
                (by rw [hpVM, hpSUC, lookupStr_setKey_self]; simp)
            next hc3 =>
              simp only [Except.ok.injEq, Prod.mk.injEq] at h
              obtain ⟨hb, hst⟩ := h
              subst hst
              dsimp only at hpEX hpAM hpSMC hpSUC hpTSM hpVM
              exact shouldMock_cache_hit ext f n stB d
                (by rw [hpVM, hpEX, heq1])
                (by rw [hpVM, hpAM, hpSUC]; exact hc1)
                (by rw [hpVM, hpSMC, lookupStr_setKey_self, hb])

end Jest

namespace Jest

theorem getModuleRegistry_set (sel : RegistrySel) (reg : List (String × ModuleRecord))
    (st : RT) : getModuleRegistry sel (setModuleRegistry sel reg st) = reg := by
  cases sel <;> simp [getModuleRegistry, setModuleRegistry]

/-- A completed miss path leaves the loaded record under its path in the
selected registry, with the returned exports. -/
theorem loadAndRegister_ok_hit {ext : Ext} {sel : RegistrySel} {modulePath : String}
    {st : RT} {v : JSValue} {st₁ : RT}
    (h : loadAndRegister ext sel modulePath st = .ok (v, st₁)) :
    ∃ lm₁ : ModuleRecord,
      lookupStr modulePath (getModuleRegistry sel st₁) = some lm₁ ∧ lm₁.exports = v := by
  unfold loadAndRegister at h
  dsimp only at h
  split at h
  · simp at h
  next lm₁ st₃ heq =>
    simp only [Except.ok.injEq, Prod.mk.injEq] at h
    obtain ⟨hv, hst⟩ := h
    subst hst
    exact ⟨lm₁, by rw [getModuleRegistry_set, lookupStr_setKey_self], hv⟩

theorem loadAndRegister_ok_iso {ext : Ext} {modulePath : String} {st : RT} {v : JSValue}
    {st₁ : RT} (h : loadAndRegister ext .isolated modulePath st = .ok (v, st₁)) :
    st₁.moduleRegistry = st.moduleRegistry ∧ st₁.isolatedModuleRegistry.isSome = true := by
  have hf := loadAndRegister_iso ext modulePath st
  rw [h] at hf
  simpa only [resState] using hf

theorem manualRedirect_congr (ext : Ext) (f : String) (mn : Option String) (ii ia : Bool)
    {st st₁ : RT}
    (hVM : st₁.virtualMocks = st.virtualMocks)
    (hEX : st₁.explicitShouldMock = st.explicitShouldMock)
    (hMM : st₁.isCurrentlyExecutingManualMock = st.isCurrentlyExecutingManualMock) :
    manualRedirect ext f mn ii ia st₁ = manualRedirect ext f mn ii ia st := by
  unfold manualRedirect
  dsimp only
  rw [hVM, hEX, hMM]

/-- Repeating a successful non-internal `requireModule` call is a registry
hit that returns the same exports and leaves the state unchanged. -/
theorem requireModule_second {ext : Ext} {f n : String} {st : RT} {v : JSValue} {st₁ : RT}
    (hrs : ext.runScriptOk = true)
    (h : requireModule ext f (some n) false false st = .ok (v, st₁)) :
    requireModule ext f (some n) false false st₁ = .ok (v, st₁) := by
  have hms := requireModule_ok_mockSide h
  have hre := requireModule_ok_reentrancy ext f (some n) false st v st₁ hrs h
  have hVM : st₁.virtualMocks = st.virtualMocks := hms.2.2.2.2.2.2.2.1
  have hEX : st₁.explicitShouldMock = st.explicitShouldMock := hms.2.2.1
  have hMR := manualRedirect_congr ext f (some n) false false hVM hEX hre.2
  unfold requireModule at h ⊢
  split at h
  next hcore =>
    simp only [Except.ok.injEq, Prod.mk.injEq] at h
    obtain ⟨hv, hst⟩ := h
    subst hst
    rw [if_pos hcore, hv]
  next hcore =>
    rw [if_neg hcore, hMR]
    split at h
    · simp at h
    next modulePath hres =>
      split at h
      next m hhit =>
        simp only [Except.ok.injEq, Prod.mk.injEq] at h
        obtain ⟨hv, hst⟩ := h
        subst hst
        rw [hhit]
        dsimp only
        rw [hv]
      next hmiss =>
        by_cases hsel : ((lookupStr modulePath st.moduleRegistry).isSome
            || st.isolatedModuleRegistry.isNone) = true
        · have hsel₀ : selectRegistry false modulePath st = .main := by
            unfold selectRegistry
            simp [hsel]
          rw [hsel₀] at h
          obtain ⟨lm₁, hlk, hv⟩ := loadAndRegister_ok_hit h
          have hlk₁ : lookupStr modulePath st₁.moduleRegistry = some lm₁ := hlk
          have hsel₁ : selectRegistry false modulePath st₁ = .main := by
            unfold selectRegistry
            rw [hlk₁]
            simp
          rw [hsel₁]
          rw [show lookupStr modulePath (getModuleRegistry .main st₁) = some lm₁ from hlk₁]
          dsimp only
          rw [hv]
        · have hCond : ((lookupStr modulePath st.moduleRegistry).isSome
              || st.isolatedModuleRegistry.isNone) = false := by
            cases hbb : ((lookupStr modulePath st.moduleRegistry).isSome
              || st.isolatedModuleRegistry.isNone)
            · rfl
            · exact absurd hbb hsel
          have hsel₀ : selectRegistry false modulePath st = .isolated := by
            unfold selectRegistry
            simp [hCond]
          rw [hsel₀] at h
          obtain ⟨lm₁, hlk, hv⟩ := loadAndRegister_ok_hit h
          have hiso := loadAndRegister_ok_iso h
          have h1 : (lookupStr modulePath st.moduleRegistry).isSome = false :=
            (Bool.or_eq_false_iff.mp hCond).1
          have h2 : st₁.isolatedModuleRegistry.isNone = false := by
            cases hh : st₁.isolatedModuleRegistry
            · rw [hh] at hiso
              simp at hiso
            · rfl
          have hsel₁ : selectRegistry false modulePath st₁ = .isolated := by
            unfold selectRegistry
            rw [hiso.1, h1, h2]
            simp
          rw [hsel₁, hlk]
          dsimp only
          rw [hv]

end Jest

namespace Jest

theorem requireMock_ok_policy {ext : Ext} {f n : String} {st : RT} {v : JSValue} {st₁ : RT}
    (h : requireMock ext f n st = .ok (v, st₁)) : PolicyEq st₁ st := by
  have hf := requireMock_policy ext f n st
  rw [h] at hf
  simpa only [resState] using hf

theorem generateMock_ok_gen {ext : Ext} {f n : String} {st : RT} {v : JSValue} {st₁ : RT}
    (h : generateMock ext f n st = .ok (v, st₁)) : GenFrameEq st₁ st := by
  have hf := generateMock_frame ext f n st
  rw [h] at hf
  simpa only [resState] using hf

/-- After a truthy value is stored for the module ID in the captured mock
registry, a `requireMock` call is a registry hit returning that value and
leaving the state unchanged. -/
theorem requireMock_cached_hit (ext : Ext) (f n : String) (stX : RT) (v : JSValue)
    (htr : v.truthy = true) :
    requireMock ext f n
      (setMockRegistryLive
        (setKey (ext.getModuleID stX.virtualMocks f (some n)) v (mockRegistryLive stX)) stX)
      = .ok (v,
        setMockRegistryLive
          (setKey (ext.getModuleID stX.virtualMocks f (some n)) v (mockRegistryLive stX)) stX) := by
  unfold setMockRegistryLive mockRegistryLive
  cases hc : stX.isolatedMockRegistry with
  | some iso =>
    dsimp only
    unfold requireMock isolatedMockLookup
    dsimp only
    simp [lookupStr_setKey_self, truthyOpt, htr]
  | none =>
    dsimp only
    unfold requireMock isolatedMockLookup
    dsimp only
    simp [lookupStr_setKey_self, truthyOpt, htr]

/-- Repeating a successful `requireMock` call whose returned value is
truthy is a registry hit that returns the same value and leaves the state
unchanged. -/
theorem requireMock_second {ext : Ext} {f n : String} {st : RT} {v : JSValue} {st₁ : RT}
    (h : requireMock ext f n st = .ok (v, st₁)) (htr : v.truthy = true) :
    requireMock ext f n st₁ = .ok (v, st₁) := by
  have h0 := h
  unfold requireMock at h
  dsimp only at h
  split at h
  · simp only [Except.ok.injEq, Prod.mk.injEq] at h
    obtain ⟨hv, hst⟩ := h
    subst hst
    exact hv ▸ h0
  · split at h
    · simp only [Except.ok.injEq, Prod.mk.injEq] at h
      obtain ⟨hv, hst⟩ := h
      subst hst
      exact hv ▸ h0
    · split at h
      next factory hfac =>
        simp only [Except.ok.injEq, Prod.mk.injEq] at h
        obtain ⟨hv, hst⟩ := h
        subst hst
        subst hv
        exact requireMock_cached_hit ext f n _ _ htr
      · split at h
        · simp at h
        next modulePath₀ hres =>
          split at h
          · -- manual-mock branch
            unfold requireMockManual at h
            dsimp only at h
            split at h
            · simp at h
            next lm₁ st₂ heq =>
              simp only [Except.ok.injEq, Prod.mk.injEq] at h
              obtain ⟨hv, hst⟩ := h
              subst hst
              subst hv
              have hVM₂ : st₂.virtualMocks = st.virtualMocks :=
                (loadModule_ok_mockSide heq).2.2.2.2.2.2.2.1
              have hch := requireMock_cached_hit ext f n st₂ lm₁.exports htr
              rw [hVM₂] at hch
              exact hch
          · -- automock branch
            unfold requireMockGenerate at h
            split at h
            · simp at h
            next mockObj st₂ heq =>
              simp only [Except.ok.injEq, Prod.mk.injEq] at h
              obtain ⟨hv, hst⟩ := h
              subst hst
              subst hv
              have hVM₂ : st₂.virtualMocks = st.virtualMocks :=
                (generateMock_ok_gen heq).2.2.2.2.2.1
              have hch := requireMock_cached_hit ext f n st₂ mockObj htr
              rw [hVM₂] at hch
              exact hch

end Jest

namespace Jest

/-- Outcome values of two consecutive calls through the require surface. -/
def twoRequires (ext : Ext) (f n : String) (st : RT) : Option (JSValue × JSValue) :=
  match requireModuleOrMock ext f n st with
  | .ok (v₁, st₁) =>
    match requireModuleOrMock ext f n st₁ with
    | .ok (v₂, _) => some (v₁, v₂)
    | .error _ => none
  | .error _ => none

/-- A mock factory whose first value is falsy and whose later values are
fresh truthy objects, as an impure user factory can produce. -/
def claim7Factory : Nat → JSValue :=
  fun k => if k = 0 then ⟨500, false⟩ else ⟨501, true⟩

/-- A state in which F::x is explicitly mocked with `claim7Factory`. -/
def claim7St : RT :=
  { baseSt with
    explicitShouldMock := [("F::x", true)],
    mockFactories := [("F::x", claim7Factory)] }

/-- Claim C7 as stated is false: the mock registry is consulted with a
truthiness test (`this._mockRegistry.get(moduleID)`, source line 386), so
when the cached exports value is falsy the second call re-invokes the
registered factory instead of serving the registry, and here it returns a
different value (different identity) with no intervening mutation. -/
theorem claim7_counterexample :
    twoRequires baseExt "F" "x" claim7St = some (⟨500, false⟩, ⟨501, true⟩) ∧
    (⟨500, false⟩ : JSValue) ≠ ⟨501, true⟩ :=
  ⟨rfl, by decide⟩

/-- Claim C7 amended: two consecutive requires of the same (from, name)
with no intervening mutation return the identical exports value, the second
call served from the registry without re-evaluation and without any state
change, provided the script runner is live and, when the mock path is
taken, the exports value delivered by the first call is truthy. -/
theorem claim7_amended (ext : Ext) (f n : String) (st : RT) (v : JSValue) (st₁ : RT)
    (hrs : ext.runScriptOk = true)
    (h : requireModuleOrMock ext f n st = .ok (v, st₁))
    (htr : ∀ stA, shouldMock ext f n st = .ok (true, stA) → v.truthy = true) :
    requireModuleOrMock ext f n st₁ = .ok (v, st₁) := by
  unfold requireModuleOrMock at h ⊢
  rw [hintNotFound_ok_iff] at h
  rw [hintNotFound_ok_iff]
  cases hsm : shouldMock ext f n st with
  | error e =>
    rw [hsm] at h
    simp at h
  | ok p =>
    obtain ⟨d, stA⟩ := p
    rw [hsm] at h
    try dsimp only at h
    cases d with
    | false =>
      have hpol : PolicyEq st₁ stA := mockSideEq_policy (requireModule_ok_mockSide h)
      have hstable := shouldMock_stable hsm hpol
      rw [hstable]
      try dsimp only
      exact requireModule_second hrs h
    | true =>
      have hpol : PolicyEq st₁ stA := requireMock_ok_policy h
      have hstable := shouldMock_stable hsm hpol
      rw [hstable]
      try dsimp only
      exact requireMock_second h (htr stA hsm)

/-- A truthy constant factory for the C7 witness. -/
def claim7WitnessFactory : Nat → JSValue := fun _ => ⟨600, true⟩

def claim7WSt : RT :=
  { baseSt with
    explicitShouldMock := [("F::x", true)],
    mockFactories := [("F::x", claim7WitnessFactory)] }

def claim7WSt1 : RT := resState (requireModuleOrMock baseExt "F" "x" claim7WSt)

theorem claim7_witness :
    requireModuleOrMock baseExt "F" "x" claim7WSt1 = .ok (⟨600, true⟩, claim7WSt1) :=
  claim7_amended baseExt "F" "x" claim7WSt ⟨600, true⟩ claim7WSt1 rfl rfl
    (fun _ _ => rfl)

/-- A mock factory whose first value is falsy, then a different value. -/
def claim8Factory : Nat → JSValue :=
  fun k => if k = 0 then ⟨700, false⟩ else ⟨701, true⟩

/-- Outcome values of setMock followed by two requires. -/
def twoRequiresAfterSetMock (ext : Ext) (f n : String) (fac : Nat → JSValue) (st : RT) :
    Option (JSValue × JSValue) :=
  twoRequires ext f n (setMock ext f n fac false st)

/-- Claim C8 as stated is false: when the first factory value is falsy, the
truthiness check on the mock registry (source line 386) misses, so the
second require invokes the factory afresh before any `resetModules`, and an
impure factory then delivers a different value instead of the cached one. -/
theorem claim8_counterexample :
    twoRequiresAfterSetMock baseExt "F" "x" claim8Factory baseSt
      = some (⟨700, false⟩, ⟨701, true⟩) ∧
    (⟨700, false⟩ : JSValue) ≠ ⟨701, true⟩ :=
  ⟨rfl, by decide⟩

/-- The factory branch of `requireMock`, spelled out: with no isolation
scope, no truthy cached value, a registered factory and a known invocation
count, the call invokes the factory at that count, bumps the count and
caches the value in the main mock registry. -/
theorem requireMock_factory_branch (ext : Ext) (f n : String) (st : RT)
    (fac : Nat → JSValue) (c : Nat)
    (hiso : st.isolatedMockRegistry = none)
    (hreg : truthyOpt (lookupStr (ext.getModuleID st.virtualMocks f (some n))
      st.mockRegistry) = false)
    (hfac : lookupStr (ext.getModuleID st.virtualMocks f (some n)) st.mockFactories
      = some fac)
    (hcount : lookupStr (ext.getModuleID st.virtualMocks f (some n)) st.mockFactoryCalls
      = some c) :
    requireMock ext f n st = .ok (fac c,
      { st with
        mockFactoryCalls := setKey (ext.getModuleID st.virtualMocks f (some n)) (c + 1)
          st.mockFactoryCalls,
        mockRegistry := setKey (ext.getModuleID st.virtualMocks f (some n)) (fac c)
          st.mockRegistry }) := by
  unfold requireMock isolatedMockLookup setMockRegistryLive mockRegistryLive
  simp only [hiso, show truthyOpt (none : Option JSValue) = false from rfl, hreg, hfac,
    hcount, Option.getD_some, Bool.false_eq_true, if_false]

/-- The mock-registry hit of `requireMock`, spelled out: with no isolation
scope and a truthy cached value for the ID, the call returns the cached
value and changes nothing. -/
theorem requireMock_registry_hit (ext : Ext) (f n : String) (st : RT) (v : JSValue)
    (hiso : st.isolatedMockRegistry = none)
    (hreg : lookupStr (ext.getModuleID st.virtualMocks f (some n)) st.mockRegistry
      = some v)
    (htr : v.truthy = true) :
    requireMock ext f n st = .ok (v, st) := by
  unfold requireMock isolatedMockLookup
  simp only [hiso, show truthyOpt (none : Option JSValue) = false from rfl, hreg,
    show truthyOpt (some v) = v.truthy from rfl, htr, Option.getD_some,
    Bool.false_eq_true, if_false, if_true]

/-- The require surface on the mock path: the policy answered true and the
mock delivery succeeded. -/
theorem requireModuleOrMock_mock_path {ext : Ext} {f n : String} {st stA : RT}
    {v : JSValue} {st₁ : RT}
    (hsm : shouldMock ext f n st = .ok (true, stA))
    (hrm : requireMock ext f n stA = .ok (v, st₁)) :
    requireModuleOrMock ext f n st = .ok (v, st₁) := by
  unfold requireModuleOrMock
  rw [hintNotFound_ok_iff, hsm]
  try dsimp only
  exact hrm

/-- State after `setMock` followed by the first factory-backed require. -/
def afterFactoryCall (ext : Ext) (f n : String) (fac : Nat → JSValue) (st : RT) : RT :=
  { setMock ext f n fac false st with
    mockFactoryCalls :=
      setKey (ext.getModuleID (setMock ext f n fac false st).virtualMocks f (some n)) 1
        (setMock ext f n fac false st).mockFactoryCalls,
    mockRegistry :=
      setKey (ext.getModuleID (setMock ext f n fac false st).virtualMocks f (some n)) (fac 0)
        (setMock ext f n fac false st).mockRegistry }

/-- State after a further `resetModules` and a second factory invocation. -/
def afterThirdCall (ext : Ext) (f n : String) (fac : Nat → JSValue) (st : RT) : RT :=
  { resetModules (afterFactoryCall ext f n fac st) with
    mockFactoryCalls :=
      setKey (ext.getModuleID (resetModules (afterFactoryCall ext f n fac st)).virtualMocks
          f (some n)) 2
        (resetModules (afterFactoryCall ext f n fac st)).mockFactoryCalls,
    mockRegistry :=
      setKey (ext.getModuleID (resetModules (afterFactoryCall ext f n fac st)).virtualMocks
          f (some n)) (fac 1)
        (resetModules (afterFactoryCall ext f n fac st)).mockRegistry }

/-- Claim C8 amended: after `setMock(name, factory)` with no mock value
cached for the module and no isolation scope, a require returns the value
the factory produced on its first invocation; while that value is truthy,
every subsequent require returns that same cached value without invoking
the factory; after `resetModules` clears the mock registry, the factory is
invoked afresh. -/
theorem claim8_amended (ext : Ext) (f n : String) (fac : Nat → JSValue) (st : RT)
    (hiso : st.isolatedMockRegistry = none)
    (hreg : lookupStr (ext.getModuleID st.virtualMocks f (some n)) st.mockRegistry = none)
    (htr : (fac 0).truthy = true) :
    requireModuleOrMock ext f n (setMock ext f n fac false st)
      = .ok (fac 0, afterFactoryCall ext f n fac st) ∧
    requireModuleOrMock ext f n (afterFactoryCall ext f n fac st)
      = .ok (fac 0, afterFactoryCall ext f n fac st) ∧
    requireModuleOrMock ext f n (resetModules (afterFactoryCall ext f n fac st))
      = .ok (fac 1, afterThirdCall ext f n fac st) := by
  have hsm1 : shouldMock ext f n (setMock ext f n fac false st)
      = .ok (true, setMock ext f n fac false st) := by
    apply shouldMock_explicit_hit
    show lookupStr (ext.getModuleID st.virtualMocks f (some n))
        (setKey (ext.getModuleID st.virtualMocks f (some n)) true st.explicitShouldMock)
      = some true
    exact lookupStr_setKey_self _ _ _
  have hrm1 := requireMock_factory_branch ext f n (setMock ext f n fac false st) fac 0
    (by show st.isolatedMockRegistry = none; exact hiso)
    (by show truthyOpt (lookupStr (ext.getModuleID st.virtualMocks f (some n))
          st.mockRegistry) = false
        rw [hreg]
        rfl)
    (by show lookupStr (ext.getModuleID st.virtualMocks f (some n))
          (setKey (ext.getModuleID st.virtualMocks f (some n)) fac st.mockFactories)
        = some fac
        exact lookupStr_setKey_self _ _ _)
    (by show lookupStr (ext.getModuleID st.virtualMocks f (some n))
          (setKey (ext.getModuleID st.virtualMocks f (some n)) 0 st.mockFactoryCalls)
        = some 0
        exact lookupStr_setKey_self _ _ _)
  have hsm2 : shouldMock ext f n (afterFactoryCall ext f n fac st)
      = .ok (true, afterFactoryCall ext f n fac st) := by
    apply shouldMock_explicit_hit
    show lookupStr (ext.getModuleID st.virtualMocks f (some n))
        (setKey (ext.getModuleID st.virtualMocks f (some n)) true st.explicitShouldMock)
      = some true
    exact lookupStr_setKey_self _ _ _
  have hhit2 := requireMock_registry_hit ext f n (afterFactoryCall ext f n fac st) (fac 0)
    (by show st.isolatedMockRegistry = none; exact hiso)
    (by show lookupStr (ext.getModuleID st.virtualMocks f (some n))
          (setKey (ext.getModuleID st.virtualMocks f (some n)) (fac 0) st.mockRegistry)
        = some (fac 0)
        exact lookupStr_setKey_self _ _ _)
    htr
  have hsm3 : shouldMock ext f n (resetModules (afterFactoryCall ext f n fac st))
      = .ok (true, resetModules (afterFactoryCall ext f n fac st)) := by
    apply shouldMock_explicit_hit
    show lookupStr (ext.getModuleID st.virtualMocks f (some n))
        (setKey (ext.getModuleID st.virtualMocks f (some n)) true st.explicitShouldMock)
      = some true
    exact lookupStr_setKey_self _ _ _
  have hrm3 := requireMock_factory_branch ext f n
    (resetModules (afterFactoryCall ext f n fac st)) fac 1
    (by show (none : Option (List (String × JSValue))) = none; rfl)
    (by show truthyOpt (lookupStr (ext.getModuleID st.virtualMocks f (some n))
          ([] : List (String × JSValue))) = false
        rfl)
    (by show lookupStr (ext.getModuleID st.virtualMocks f (some n))
          (setKey (ext.getModuleID st.virtualMocks f (some n)) fac st.mockFactories)
        = some fac
        exact lookupStr_setKey_self _ _ _)
    (by show lookupStr (ext.getModuleID st.virtualMocks f (some n))
          (setKey (ext.getModuleID st.virtualMocks f (some n)) 1
            (setKey (ext.getModuleID st.virtualMocks f (some n)) 0 st.mockFactoryCalls))
        = some 1
        exact lookupStr_setKey_self _ _ _)
  exact ⟨requireModuleOrMock_mock_path hsm1 hrm1,
    requireModuleOrMock_mock_path hsm2 hhit2,
    requireModuleOrMock_mock_path hsm3 hrm3⟩

/-- A truthy constant factory for the C8 witness. -/
def claim8WitnessFactory : Nat → JSValue := fun k => ⟨800 + k, true⟩

theorem claim8_witness :
    requireModuleOrMock baseExt "F" "x"
      (setMock baseExt "F" "x" claim8WitnessFactory false baseSt)
      = .ok (claim8WitnessFactory 0, afterFactoryCall baseExt "F" "x" claim8WitnessFactory baseSt) ∧
    requireModuleOrMock baseExt "F" "x"
      (afterFactoryCall baseExt "F" "x" claim8WitnessFactory baseSt)
      = .ok (claim8WitnessFactory 0, afterFactoryCall baseExt "F" "x" claim8WitnessFactory baseSt) ∧
    requireModuleOrMock baseExt "F" "x"
      (resetModules (afterFactoryCall baseExt "F" "x" claim8WitnessFactory baseSt))
      = .ok (claim8WitnessFactory 1, afterThirdCall baseExt "F" "x" claim8WitnessFactory baseSt) :=
  claim8_amended baseExt "F" "x" claim8WitnessFactory baseSt rfl rfl rfl

end Jest
